import Mathlib

/-!
Verification development for the samedotdev analysis-normalisation and
code-generation pipeline (`src/ai_agents`).  Python values are shallowly
embedded as the inductive `Py`; Python dictionaries are insertion-ordered
association lists with unique keys, and Python exceptions are modelled with
`Except String`.  Every definition is translated from the source files
`analyzer_agent.py`, `generator_agent.py` and `website_clone.py`.
-/

/-- A Python value: `None`, booleans, integers, strings, lists and
string-keyed dictionaries (the only shapes the pipeline manipulates). -/
inductive Py where
  | none  : Py
  | bool  : Bool → Py
  | int   : Int → Py
  | str   : String → Py
  | list  : List Py → Py
  | dict  : List (String × Py) → Py

/-- Python truthiness: `None`, `False`, `0`, `""`, `[]` and `{}` are falsy. -/
def Py.truthy : Py → Bool
  | .none => false
  | .bool b => b
  | .int n => n != 0
  | .str s => s ≠ ""
  | .list l => !l.isEmpty
  | .dict d => !d.isEmpty

/-- First binding of a key in a dictionary (Python dicts have unique keys,
so first-match lookup is exact). -/
def dictGet? (d : List (String × Py)) (k : String) : Option Py :=
  match d with
  | [] => Option.none
  | (k', v) :: rest => if k' = k then some v else dictGet? rest k

/-- `d.get(k, default)`. -/
def dictGetD (d : List (String × Py)) (k : String) (dflt : Py) : Py :=
  (dictGet? d k).getD dflt

/-- `k in d` for a Python dict. -/
def dictHas (d : List (String × Py)) (k : String) : Bool :=
  (dictGet? d k).isSome

/-- Python dict assignment `d[k] = v`: replace the value in place if the key
exists (keeping its position), otherwise append the new binding. -/
def dictSet (d : List (String × Py)) (k : String) (v : Py) : List (String × Py) :=
  match d with
  | [] => [(k, v)]
  | (k', v') :: rest =>
      if k' = k then (k', v) :: rest else (k', v') :: dictSet rest k v

/-- Python `dict.update(u)`: assign each binding of `u` in order. -/
def pyDictUpdate (d u : List (String × Py)) : List (String × Py) :=
  u.foldl (fun acc kv => dictSet acc kv.1 kv.2) d

/-- `obj.get(k)` — requires the receiver to be a dict, raising
`AttributeError` otherwise; returns `None` when the key is absent. -/
def pyGet (obj : Py) (k : String) : Except String Py :=
  match obj with
  | .dict d => .ok (dictGetD d k Py.none)
  | _ => .error "AttributeError: object has no attribute get"

/-- `obj[k]` — `KeyError` when a dict lacks the key, `TypeError` when the
receiver is not subscriptable by a string. -/
def pyGetItem (obj : Py) (k : String) : Except String Py :=
  match obj with
  | .dict d =>
      match dictGet? d k with
      | some v => .ok v
      | Option.none => .error ("KeyError: " ++ k)
  | _ => .error "TypeError: object is not subscriptable by str"

/-- View a value as a dict, raising the error an attribute/item access on it
would raise otherwise. -/
def asDict (obj : Py) : Except String (List (String × Py)) :=
  match obj with
  | .dict d => .ok d
  | _ => .error "AttributeError: object is not a dict"

mutual
/-- Python `repr` of a value (string escaping subtleties are not reproduced;
the pipeline only ever formats strings, where `str` is used instead). -/
def pyRepr : Py → String
  | .none => "None"
  | .bool b => if b then "True" else "False"
  | .int n => toString n
  | .str s => "\x27" ++ s ++ "\x27"
  | .list l => "[" ++ pyReprJoin l ++ "]"
  | .dict d => "\x7b" ++ pyReprJoinDict d ++ "\x7d"

def pyReprJoin : List Py → String
  | [] => ""
  | [v] => pyRepr v
  | v :: rest => pyRepr v ++ ", " ++ pyReprJoin rest

def pyReprJoinDict : List (String × Py) → String
  | [] => ""
  | [(k, v)] => "\x27" ++ k ++ "\x27: " ++ pyRepr v
  | (k, v) :: rest => "\x27" ++ k ++ "\x27: " ++ pyRepr v ++ ", " ++ pyReprJoinDict rest
end

/-- Python `str(v)` as used by f-string interpolation. -/
def pyFmt : Py → String
  | .str s => s
  | v => pyRepr v

/-! ### Character and string utilities mirroring Python `str` methods -/

/-- Python whitespace for `str.strip` and the regex class `\s`. -/
def isPySpace (c : Char) : Bool :=
  c = ' ' || c = '\t' || c = '\n' || c = '\r' || c = '\x0b' || c = '\x0c'

/-- `str.strip()` on a character list. -/
def pyStripList (l : List Char) : List Char :=
  ((l.dropWhile isPySpace).reverse.dropWhile isPySpace).reverse

/-- `str.strip()`. -/
def pyStrip (s : String) : String :=
  ⟨pyStripList s.toList⟩

/-- `str.lower()` on a character list (ASCII, which is all the sources use). -/
def lowerList (l : List Char) : List Char :=
  l.map Char.toLower

/-- Substring occurrence on character lists. -/
def listIsInfixOf (needle : List Char) : List Char → Bool
  | [] => needle.isEmpty
  | c :: rest => needle.isPrefixOf (c :: rest) || listIsInfixOf needle rest

/-- `needle in hay` for Python strings (substring containment). -/
def strContains (hay needle : String) : Bool :=
  listIsInfixOf needle.toList hay.toList

/-- `s.startswith(pre)`. -/
def strStartsWith (s pre : String) : Bool :=
  pre.toList.isPrefixOf s.toList

/-- `s.split(sep)` for a one-character separator (no collapsing of empty
parts, like Python `str.split` with an explicit separator). -/
def splitOnChar (sep : Char) : List Char → List (List Char)
  | [] => [[]]
  | c :: rest =>
      let r := splitOnChar sep rest
      if c = sep then [] :: r
      else
        match r with
        | [] => [[c]]
        | h :: t => (c :: h) :: t

def pySplitLines (s : String) : List String :=
  (splitOnChar '\n' s.toList).map (fun l => (⟨l⟩ : String))

/-- Case-insensitive `f.lower().endswith(suffix)` with an ASCII suffix. -/
def lowerEndsWith (s suffix : String) : Bool :=
  suffix.toList.isSuffixOf (lowerList s.toList)

/-- `s.replace(pat, "")` (remove every occurrence, scanning left to right),
as used on code-fence markers; `fuel` bounds the scan. -/
def removeAllAux (fuel : Nat) (pat l : List Char) : List Char :=
  match fuel, l with
  | 0, l => l
  | _, [] => []
  | fuel + 1, c :: rest =>
      if pat.isPrefixOf (c :: rest) then
        removeAllAux fuel pat ((c :: rest).drop pat.length)
      else
        c :: removeAllAux fuel pat rest

/-- `s.replace(pat, "")` for a non-empty pattern. -/
def removeAll (pat : String) (s : String) : String :=
  ⟨removeAllAux s.toList.length pat.toList s.toList⟩

/-- `str.capitalize()`: first character upper-cased, the rest lower-cased. -/
def pyCapitalize (s : String) : String :=
  match s.toList with
  | [] => ""
  | c :: rest => ⟨c.toUpper :: lowerList rest⟩

/-- `str.isalnum()`: non-empty and every character alphanumeric (ASCII). -/
def pyIsAlnum (s : String) : Bool :=
  s ≠ "" && s.toList.all Char.isAlphanum

/-- `os.path.basename`: the part after the last `/`. -/
def pyBasename (s : String) : String :=
  ⟨(s.toList.reverse.takeWhile (· ≠ '/')).reverse⟩

/-- The extension part of `os.path.splitext`: starts at the last dot of the
basename, except that leading dots never begin an extension. -/
def pySplitextExt (s : String) : String :=
  let base := (pyBasename s).toList
  let afterLead := base.dropWhile (· = '.')
  if afterLead.any (· = '.') then
    ⟨'.' :: (afterLead.reverse.takeWhile (· ≠ '.')).reverse⟩
  else ""

/-- The root part of `os.path.splitext(os.path.basename(s))[0]`. -/
def pySplitextRoot (s : String) : String :=
  let base := (pyBasename s).toList
  ⟨base.take (base.length - (pySplitextExt s).toList.length)⟩

/-! ### JSON: `json.loads` and `json.dumps(..., indent=2)` -/

/-- JSON whitespace. -/
def isJsonSpace (c : Char) : Bool :=
  c = ' ' || c = '\t' || c = '\n' || c = '\r'

/-- One escape character of a JSON string (`\u` escapes and float literals
are not modelled: inputs using them make the parser fail, which every
theorem below treats as hypothesis or avoids). -/
def jsonEscChar (c : Char) : Option Char :=
  match c with
  | '"' => some '"'
  | '\\' => some '\\'
  | '/' => some '/'
  | 'b' => some '\x08'
  | 'f' => some '\x0c'
  | 'n' => some '\n'
  | 'r' => some '\r'
  | 't' => some '\t'
  | _ => Option.none

/-- Parse the body of a JSON string after the opening quote; returns the
decoded characters and the remainder after the closing quote. -/
def jsonStringAux (fuel : Nat) (l : List Char) : Option (List Char × List Char) :=
  match fuel, l with
  | 0, _ => Option.none
  | _, [] => Option.none
  | fuel + 1, c :: rest =>
      if c = '"' then some ([], rest)
      else if c = '\\' then
        match rest with
        | [] => Option.none
        | e :: rest' =>
            match jsonEscChar e with
            | some d =>
                match jsonStringAux fuel rest' with
                | some (s, r) => some (d :: s, r)
                | Option.none => Option.none
            | Option.none => Option.none
      else
        match jsonStringAux fuel rest with
        | some (s, r) => some (c :: s, r)
        | Option.none => Option.none

/-- Parse a JSON integer (an optional minus sign and digits; a following
`.`, `e` or `E` would be a float, which is not modelled and fails). -/
def jsonNumber (l : List Char) : Option (Int × List Char) :=
  let (neg, l') := match l with
    | '-' :: rest => (true, rest)
    | _ => (false, l)
  let digits := l'.takeWhile Char.isDigit
  let rest := l'.dropWhile Char.isDigit
  if digits.isEmpty then Option.none
  else match rest with
    | '.' :: _ => Option.none
    | 'e' :: _ => Option.none
    | 'E' :: _ => Option.none
    | _ =>
        let n : Nat := digits.foldl (fun acc c => acc * 10 + (c.toNat - 48)) 0
        some (if neg then -(n : Int) else (n : Int), rest)

mutual
/-- Parse one JSON value and return the remainder. -/
def jsonValueAux (fuel : Nat) (l : List Char) : Option (Py × List Char) :=
  match fuel with
  | 0 => Option.none
  | fuel + 1 =>
      let l := l.dropWhile isJsonSpace
      match l with
      | '{' :: rest => jsonMembersAux fuel (rest.dropWhile isJsonSpace) [] true
      | '[' :: rest => jsonItemsAux fuel (rest.dropWhile isJsonSpace) [] true
      | '"' :: rest =>
          match jsonStringAux (rest.length + 1) rest with
          | some (s, r) => some (Py.str ⟨s⟩, r)
          | Option.none => Option.none
      | 't' :: 'r' :: 'u' :: 'e' :: rest => some (Py.bool true, rest)
      | 'f' :: 'a' :: 'l' :: 's' :: 'e' :: rest => some (Py.bool false, rest)
      | 'n' :: 'u' :: 'l' :: 'l' :: rest => some (Py.none, rest)
      | _ =>
          match jsonNumber l with
          | some (n, rest) => some (Py.int n, rest)
          | Option.none => Option.none

/-- Parse the members of a JSON object after the opening brace (duplicate
keys follow Python semantics: last value wins, first position kept). -/
def jsonMembersAux (fuel : Nat) (l : List Char) (acc : List (String × Py))
    (allowEnd : Bool) : Option (Py × List Char) :=
  match fuel with
  | 0 => Option.none
  | fuel + 1 =>
      match l with
      | '}' :: rest => if allowEnd then some (Py.dict acc, rest) else Option.none
      | '"' :: rest =>
          match jsonStringAux (rest.length + 1) rest with
          | some (k, r1) =>
              match r1.dropWhile isJsonSpace with
              | ':' :: r2 =>
                  match jsonValueAux fuel r2 with
                  | some (v, r3) =>
                      let acc' := dictSet acc ⟨k⟩ v
                      match r3.dropWhile isJsonSpace with
                      | ',' :: r4 => jsonMembersAux fuel (r4.dropWhile isJsonSpace) acc' false
                      | '}' :: r4 => some (Py.dict acc', r4)
                      | _ => Option.none
                  | Option.none => Option.none
              | _ => Option.none
          | Option.none => Option.none
      | _ => Option.none

/-- Parse the items of a JSON array after the opening bracket. -/
def jsonItemsAux (fuel : Nat) (l : List Char) (acc : List Py)
    (allowEnd : Bool) : Option (Py × List Char) :=
  match fuel with
  | 0 => Option.none
  | fuel + 1 =>
      match l with
      | ']' :: rest => if allowEnd then some (Py.list acc.reverse, rest) else Option.none
      | _ =>
          match jsonValueAux fuel l with
          | some (v, r1) =>
              match r1.dropWhile isJsonSpace with
              | ',' :: r2 => jsonItemsAux fuel (r2.dropWhile isJsonSpace) (v :: acc) false
              | ']' :: r2 => some (Py.list (v :: acc).reverse, r2)
              | _ => Option.none
          | Option.none => Option.none
end

/-- `json.loads`: parse exactly one value, allowing surrounding whitespace
("Extra data" makes it fail). -/
def jsonParse (s : String) : Option Py :=
  match jsonValueAux (2 * s.toList.length + 2) s.toList with
  | some (v, rest) =>
      if (rest.dropWhile isJsonSpace).isEmpty then some v else Option.none
  | Option.none => Option.none

/-- `json.loads` on a character list. -/
def jsonParseList (l : List Char) : Option Py :=
  jsonParse ⟨l⟩

mutual
/-- `json.dumps(v, indent=2)` (string escaping beyond quote/backslash/newline
is approximated; no theorem depends on serialized text). -/
def jsonDumps (ind : Nat) : Py → String
  | .none => "null"
  | .bool b => if b then "true" else "false"
  | .int n => toString n
  | .str s => "\"" ++ s ++ "\""
  | .list [] => "[]"
  | .list (v :: vs) =>
      "[\n" ++ jsonDumpsItems (ind + 2) (v :: vs) ++ "\n"
        ++ String.mk (List.replicate ind ' ') ++ "]"
  | .dict [] => "\x7b\x7d"
  | .dict (kv :: kvs) =>
      "\x7b\n" ++ jsonDumpsMembers (ind + 2) (kv :: kvs) ++ "\n"
        ++ String.mk (List.replicate ind ' ') ++ "\x7d"

def jsonDumpsItems (ind : Nat) : List Py → String
  | [] => ""
  | [v] => String.mk (List.replicate ind ' ') ++ jsonDumps ind v
  | v :: rest =>
      String.mk (List.replicate ind ' ') ++ jsonDumps ind v ++ ",\n"
        ++ jsonDumpsItems ind rest

def jsonDumpsMembers (ind : Nat) : List (String × Py) → String
  | [] => ""
  | [(k, v)] => String.mk (List.replicate ind ' ') ++ "\"" ++ k ++ "\": " ++ jsonDumps ind v
  | (k, v) :: rest =>
      String.mk (List.replicate ind ' ') ++ "\"" ++ k ++ "\": " ++ jsonDumps ind v ++ ",\n"
        ++ jsonDumpsMembers ind rest
end

/-! ### `_parse_gemini_response` extraction patterns (analyzer_agent.py 371-411) -/

/-- `s.replace(pat, "")` on character lists. -/
def removeAllL (pat l : List Char) : List Char :=
  removeAllAux l.length pat l

/-- Pattern (a), `\{[\s\S]*\}` under `re.search`: from the first `{` to the
last `}`, provided that `}` comes after the `{`. -/
def braceSpanGreedy (cs : List Char) : Option (List Char) :=
  let afterFirst := cs.dropWhile (· ≠ '{')
  let upToLast := (afterFirst.reverse.dropWhile (· ≠ '}')).reverse
  if upToLast.isEmpty then Option.none else some upToLast

/-- Walk for the leftmost `}` whose remainder is all whitespace (the lazy
group of pattern (b)); `acc` holds the span so far, reversed. -/
def lazyCloseEndAux (fuel : Nat) (acc l : List Char) : Option (List Char) :=
  match fuel, l with
  | 0, _ => Option.none
  | _, [] => Option.none
  | fuel + 1, c :: rest =>
      if c = '}' && rest.all isPySpace then some ((c :: acc).reverse)
      else lazyCloseEndAux fuel (c :: acc) rest

/-- Pattern (b), `(\{[\s\S]*?\})\s*$`: from the first `{` to the earliest
`}` that is followed only by whitespace. -/
def braceSpanLazyEnd (cs : List Char) : Option (List Char) :=
  match cs.dropWhile (· ≠ '{') with
  | [] => Option.none
  | c :: rest => lazyCloseEndAux (rest.length + 1) [c] rest

/-- Walk for the leftmost `}` followed by optional whitespace and a closing
code fence (the lazy group of patterns (c) and (d)). -/
def fenceLazyCloseAux (fuel : Nat) (acc l : List Char) : Option (List Char) :=
  match fuel, l with
  | 0, _ => Option.none
  | _, [] => Option.none
  | fuel + 1, c :: rest =>
      if c = '}' && "```".toList.isPrefixOf (rest.dropWhile isPySpace) then
        some ((c :: acc).reverse)
      else fenceLazyCloseAux fuel (c :: acc) rest

/-- Patterns (c) and (d): an opening fence, optional whitespace, then a lazy
brace group closed by optional whitespace and a closing fence; the scan
tries every later opening fence when the inner match fails. -/
def fencedSpanAux (fuel : Nat) (openFence l : List Char) : Option (List Char) :=
  match fuel, l with
  | 0, _ => Option.none
  | _, [] => Option.none
  | fuel + 1, c :: rest =>
      if openFence.isPrefixOf (c :: rest) then
        match ((c :: rest).drop openFence.length).dropWhile isPySpace with
        | '{' :: tail =>
            match fenceLazyCloseAux (tail.length + 1) ['{'] tail with
            | some span => some span
            | Option.none => fencedSpanAux fuel openFence rest
        | _ => fencedSpanAux fuel openFence rest
      else fencedSpanAux fuel openFence rest

def fencedSpan (openFence cs : List Char) : Option (List Char) :=
  fencedSpanAux cs.length openFence cs

/-- The extraction stage of `_parse_gemini_response`: strip, remove leading
code fences, then try the four patterns in priority order; for each, a regex
match is parsed with `json.loads` and the first successful parse wins (a
match that fails to parse falls through to the next pattern, like the
`continue` in the source). -/
def extractJsonStage (responseText : String) : Option Py :=
  let cleaned0 := pyStripList responseText.toList
  let cleaned :=
    if "```json".toList.isPrefixOf cleaned0 then
      pyStripList (removeAllL "```".toList (removeAllL "```json".toList cleaned0))
    else if "```".toList.isPrefixOf cleaned0 then
      pyStripList (removeAllL "```".toList cleaned0)
    else cleaned0
  let tryPat : Option (List Char) → Option Py := fun span =>
    match span with
    | some s => jsonParseList s
    | Option.none => Option.none
  match tryPat (braceSpanGreedy cleaned) with
  | some v => some v
  | Option.none =>
  match tryPat (braceSpanLazyEnd cleaned) with
  | some v => some v
  | Option.none =>
  match tryPat (fencedSpan "```json".toList cleaned) with
  | some v => some v
  | Option.none => tryPat (fencedSpan "```".toList cleaned)

/-! ### `_detect_framework_from_html` (analyzer_agent.py 77-107) -/

/-- The detector's result: a dict with keys `frameworks`, `css_frameworks`
and `cms` (always all three, possibly with empty lists). -/
structure FrameworkHints where
  frameworks : List String
  css_frameworks : List String
  cms : List String
deriving DecidableEq, Repr

/-- The indicator table, in source (= Python dict iteration) order; the
upper-case indicators are kept verbatim even though they can never occur in
the lower-cased page text, as in the source. -/
def frameworkIndicators : List (String × List String) :=
  [("react", ["react", "_react", "jsx", "data-reactroot", "__REACT_DEVTOOLS"]),
   ("vue", ["vue", "_vue", "v-", "@click", "data-v-"]),
   ("angular", ["ng-", "[ng", "angular", "_angular"]),
   ("next", ["_next", "__next", "next.js"]),
   ("nuxt", ["_nuxt", "__nuxt", "nuxt.js"]),
   ("svelte", ["svelte", "_svelte"]),
   ("bootstrap", ["bootstrap", "btn-", "col-", "container-fluid"]),
   ("tailwind", ["tailwind", "tw-", "text-", "bg-", "flex", "grid"]),
   ("material-ui", ["mui", "material-ui", "makeStyles"]),
   ("chakra", ["chakra-ui", "css-"]),
   ("wordpress", ["wp-content", "wordpress", "wp-"]),
   ("shopify", ["shopify", "liquid", "theme_id"])]

def detectFrameworkFromHtml (htmlContent : String) : FrameworkHints :=
  let htmlLower : String := ⟨lowerList htmlContent.toList⟩
  frameworkIndicators.foldl
    (fun det fwInds =>
      if fwInds.2.any (fun ind => strContains htmlLower ind) then
        if fwInds.1 ∈ ["react", "vue", "angular", "next", "nuxt", "svelte"] then
          { det with frameworks := det.frameworks ++ [fwInds.1] }
        else if fwInds.1 ∈ ["bootstrap", "tailwind", "material-ui", "chakra"] then
          { det with css_frameworks := det.css_frameworks ++ [fwInds.1] }
        else if fwInds.1 ∈ ["wordpress", "shopify"] then
          { det with cms := det.cms ++ [fwInds.1] }
        else det
      else det)
    ⟨[], [], []⟩

/-! ### `_extract_from_text_response` and `_get_packages_for_framework`
(analyzer_agent.py 464-577) -/

/-- `l[0]`, raising `IndexError` on an empty list — the source reads
`framework_hints.get("frameworks", ["vanilla"])[0]`, and the `.get` default
never applies because the detector always includes the key. -/
def listIndex0 (l : List String) : Except String String :=
  match l with
  | [] => .error "IndexError: list index out of range"
  | x :: _ => .ok x

def strList (l : List String) : Py :=
  .list (l.map Py.str)

/-- `_get_packages_for_framework` (lines 561-577). -/
def getPackagesForFramework (framework cssFramework : String) : List String :=
  let base :=
    if framework = "react" then ["react", "react-dom"]
    else if framework = "next" then ["next", "react", "react-dom"]
    else if framework = "vue" then ["vue"]
    else if framework = "angular" then ["@angular/core", "@angular/common"]
    else if framework = "vanilla" then ["live-server"]
    else []
  let base :=
    if cssFramework = "tailwind" then base ++ ["tailwindcss", "autoprefixer", "postcss"]
    else if cssFramework = "bootstrap" then base ++ ["bootstrap"]
    else base
  if base.isEmpty then ["live-server"] else base

/-- The text-segmentation loop of `_extract_from_text_response` (lines
473-486): stripped lines longer than five characters overwrite `header`,
`main` or `footer` depending on position (`i < len*0.3`, `i < len*0.7`;
the float thresholds are modelled exactly as the rationals 3/10 and 7/10,
which agrees with CPython on the list lengths exercised here). -/
def segmentTextContent (responseText : String) : List (String × Py) :=
  let lines := pySplitLines responseText
  let n := lines.length
  (lines.enum).foldl
    (fun tc il =>
      let line := pyStrip il.2
      if line ≠ "" ∧ line.toList.length > 5 then
        if 10 * il.1 < 3 * n then dictSet tc "header" (.str ⟨line.toList.take 100⟩)
        else if 10 * il.1 < 7 * n then dictSet tc "main" (.str ⟨line.toList.take 100⟩)
        else dictSet tc "footer" (.str ⟨line.toList.take 100⟩)
      else tc)
    [("header", .str "Welcome to Our Site"), ("main", .str "About Us Content"),
     ("footer", .str "Copyright 2025")]

/-- `_extract_from_text_response` (lines 464-559): the heuristic
text-segmentation fallback producing a fully-populated specification. -/
def extractFromTextResponse (responseText : String)
    (frameworkHints : Option FrameworkHints) : Except String Py := do
  let dfdc ←
    match frameworkHints with
    | Option.none => pure ("vanilla", "vanilla")
    | some h => do
        let df ← listIndex0 h.frameworks
        let dc ← listIndex0 h.css_frameworks
        pure (df, dc)
  let df := dfdc.1
  let dc := dfdc.2
  let textContent := segmentTextContent responseText
  let tcHeader := pyFmt (dictGetD textContent "header" Py.none)
  let tcMain := pyFmt (dictGetD textContent "main" Py.none)
  let tcFooter := pyFmt (dictGetD textContent "footer" Py.none)
  .ok (Py.dict
    [("framework", .dict
       [("primary", .str df), ("css", .str dc),
        ("build_tools", if df ≠ "vanilla" then strList ["vite"] else .list []),
        ("backend_indicators", .list [])]),
     ("layout", .dict
       [("type", .str "flexbox"), ("structure", .str "header-main-footer"),
        ("breakpoints", strList ["sm:640px", "md:768px", "lg:1024px", "xl:1280px"]),
        ("component_hierarchy", strList ["Header", "Main", "Footer"])]),
     ("colors", .dict
       [("primary", .str "#3b82f6"), ("secondary", .str "#f8fafc"),
        ("accent", .str "#10b981"), ("background", .str "#ffffff"),
        ("text", .str "#111827")]),
     ("typography", .dict
       [("primary_font", .str "system-ui"),
        ("font_sizes", strList ["14px", "16px", "18px", "24px", "32px"]),
        ("font_weights", .list [.int 400, .int 500, .int 600, .int 700]),
        ("line_heights", strList ["1.4", "1.6", "1.8"])]),
     ("components", strList ["header", "main", "footer"]),
     ("interactive_elements", .dict
       [("navigation", strList ["hamburger"]), ("buttons", strList ["primary"]),
        ("forms", strList ["text-input"]), ("animations", strList ["fade"])]),
     ("content_structure", .dict
       [("sections", strList ["hero", "main", "footer"]),
        ("text_hierarchy", strList ["h1", "h2", "p"]),
        ("text_content", .dict textContent),
        ("images", strList ["hero-bg", "content-images"]),
        ("icons", strList ["fontawesome"])]),
     ("cloning_requirements", .dict
       [("npm_packages", strList (getPackagesForFramework df dc)),
        ("component_files", strList
          ["components/Header.html", "components/Main.html", "components/Footer.html"]),
        ("components_description", .dict
          [("components/Header.html", .str ("Header with text \x27" ++ tcHeader
             ++ "\x27, blue background, flexbox layout")),
           ("components/Main.html", .str ("Main section with text \x27" ++ tcMain
             ++ "\x27, centered content")),
           ("components/Footer.html", .str ("Footer with text \x27" ++ tcFooter
             ++ "\x27, dark background"))]),
        ("pages", strList ["index.html"]),
        ("pages_description", .dict
          [("index.html", .str ("Main page with header (\x27" ++ tcHeader
             ++ "\x27), main (\x27" ++ tcMain ++ "\x27), and footer (\x27"
             ++ tcFooter ++ "\x27)"))]),
        ("styles", strList ["style.css"]),
        ("styles_description", .dict
          [("style.css", .str "Global CSS with reset, typography, layout, and component-specific styles")]),
        ("config_files", .dict [("package.json", .dict [])]),
        ("assets", strList ["images/", "icons/", "fonts/"]),
        ("performance_tips", strList ["lazy-loading", "image-optimization"]),
        ("package_json", .dict
          [("name", .str "cloned-website"), ("version", .str "1.0.0"),
           ("description", .str "Cloned website"),
           ("scripts", .dict [("start", .str "live-server"),
             ("build", .str "echo \x27No build step required\x27")]),
           ("dependencies", .dict []),
           ("devDependencies", .dict [("live-server", .str "^1.2.2")])])]),
     ("raw_analysis", .str responseText),
     ("text_parsing_used", .bool true)])

/-! ### `_validate_and_enhance_analysis` (analyzer_agent.py 413-462) -/

def requiredFields : List String :=
  ["framework", "layout", "colors", "typography", "components",
   "interactive_elements", "content_structure", "cloning_requirements"]

/-- The default installed for an absent required field: `[]` for
`components`, `{}` otherwise. -/
def requiredFieldDefault (f : String) : Py :=
  if f = "components" then Py.list [] else Py.dict []

/-- One step of lines 415-417: `if field not in analysis: analysis[field] = …`
(assignment of an absent key appends at the end). -/
def ensureFieldStep (acc : List (String × Py)) (f : String) : List (String × Py) :=
  if dictHas acc f then acc else acc ++ [(f, requiredFieldDefault f)]

/-- Lines 414-417: absent required fields become `{}` (or `[]` for
`components`), appended in iteration order. -/
def ensureRequiredFields (a : List (String × Py)) : List (String × Py) :=
  requiredFields.foldl ensureFieldStep a

/-- `v == "unknown"` under Python `==` (false for any non-string). -/
def pyEqStr (v : Py) (s : String) : Bool :=
  match v with
  | .str t => t = s
  | _ => false

/-- `not framework.get(k) or framework[k] == "unknown"`. -/
def primaryNeedsOverwrite (f : List (String × Py)) (k : String) : Bool :=
  ¬ (dictGetD f k Py.none).truthy || pyEqStr (dictGetD f k Py.none) "unknown"

/-- The manifest synthesized at lines 428-435. -/
def defaultPackageJsonCompleter : Py :=
  .dict
    [("name", .str "cloned-website"), ("version", .str "1.0.0"),
     ("description", .str "Cloned website"),
     ("scripts", .dict [("start", .str "live-server"),
        ("build", .str "echo \x27No build step required\x27")]),
     ("dependencies", .dict []),
     ("devDependencies", .dict [("live-server", .str "^1.2.2")])]

/-- The `text_content` triple synthesized at lines 438-443. -/
def defaultTextContent : Py :=
  .dict [("header", .str "Default header text"), ("main", .str "Default main content"),
         ("footer", .str "Default footer text")]

/-- `_validate_and_enhance_analysis`: the Specification Completer.  In-place
dict mutation is modelled by threading updated dicts back into the result
with `dictSet` (which keeps key positions, like CPython). -/
def validateAndEnhanceAnalysis (analysis : Py)
    (frameworkHints : Option FrameworkHints) : Except String Py := do
  let a0 ← asDict analysis
  let a1 := ensureRequiredFields a0
  let a2 ←
    match frameworkHints with
    | Option.none => pure a1
    | some h => do
        let fw ← asDict (dictGetD a1 "framework" (Py.dict []))
        let fw ←
          if primaryNeedsOverwrite fw "primary" then do
            let v ← listIndex0 h.frameworks
            pure (dictSet fw "primary" (Py.str v))
          else pure fw
        let fw ←
          if primaryNeedsOverwrite fw "css" then do
            let v ← listIndex0 h.css_frameworks
            pure (dictSet fw "css" (Py.str v))
          else pure fw
        pure (dictSet a1 "framework" (Py.dict fw))
  let cr ← asDict (dictGetD a2 "cloning_requirements" (Py.dict []))
  let cr :=
    if !(dictGetD cr "package_json" Py.none).truthy then
      dictSet cr "package_json" defaultPackageJsonCompleter
    else cr
  let a3 := dictSet a2 "cloning_requirements" (Py.dict cr)
  let cs ← asDict (dictGetD a3 "content_structure" (Py.dict []))
  let cs :=
    if !(dictGetD cs "text_content" Py.none).truthy then
      dictSet cs "text_content" defaultTextContent
    else cs
  let a4 := dictSet a3 "content_structure" (Py.dict cs)
  let cr ←
    if !(dictGetD cr "components_description" Py.none).truthy then do
      let tc ← pyGetItem (Py.dict cs) "text_content"
      let th ← pyGetItem tc "header"
      let tm ← pyGetItem tc "main"
      let tf ← pyGetItem tc "footer"
      pure (dictSet cr "components_description" (Py.dict
        [("components/Header.html", .str ("Header with text \x27" ++ pyFmt th
           ++ "\x27, blue background, flexbox layout")),
         ("components/Main.html", .str ("Main section with text \x27" ++ pyFmt tm
           ++ "\x27, centered content")),
         ("components/Footer.html", .str ("Footer with text \x27" ++ pyFmt tf
           ++ "\x27, dark background"))]))
    else pure cr
  let cr ←
    if !(dictGetD cr "pages_description" Py.none).truthy then do
      let tc ← pyGetItem (Py.dict cs) "text_content"
      let th ← pyGetItem tc "header"
      let tm ← pyGetItem tc "main"
      let tf ← pyGetItem tc "footer"
      pure (dictSet cr "pages_description" (Py.dict
        [("index.html", .str ("Main page with header (\x27" ++ pyFmt th
           ++ "\x27), main (\x27" ++ pyFmt tm ++ "\x27), and footer (\x27"
           ++ pyFmt tf ++ "\x27)"))]))
    else pure cr
  let cr :=
    if !(dictGetD cr "styles_description" Py.none).truthy then
      dictSet cr "styles_description" (Py.dict
        [("style.css", .str "Main stylesheet with layout, typography, and component styles, including text styling")])
    else cr
  .ok (.dict (dictSet a4 "cloning_requirements" (Py.dict cr)))

/-- `_parse_gemini_response` (lines 371-411): extraction stage, Python
truthiness check on the parsed object, completion, and the heuristic
fallback on extraction/parse/completion failure (the surrounding
`try`/`except` turns completer exceptions into the fallback path). -/
def parseGeminiResponse (responseText : String)
    (frameworkHints : Option FrameworkHints) : Except String Py :=
  match extractJsonStage responseText with
  | some v =>
      if v.truthy then
        match validateAndEnhanceAnalysis v frameworkHints with
        | .ok r => .ok r
        | .error _ => extractFromTextResponse responseText frameworkHints
      else extractFromTextResponse responseText frameworkHints
  | Option.none => extractFromTextResponse responseText frameworkHints

/-! ### `_extract_colors_from_html` (analyzer_agent.py 687-717) -/

/-- A `re.findall` result element: one string for a single capture group,
a tuple of strings for several groups (as the `rgb`/`rgba` patterns yield). -/
inductive ReMatch where
  | s (v : String)
  | t (vs : List String)

/-- Generic insertion-ordered association-list lookup. -/
def alistGet? {α : Type} (d : List (String × α)) (k : String) : Option α :=
  match d with
  | [] => Option.none
  | (k', v) :: rest => if k' = k then some v else alistGet? rest k

/-- Generic Python-style dict assignment. -/
def alistSet {α : Type} (d : List (String × α)) (k : String) (v : α) :
    List (String × α) :=
  match d with
  | [] => [(k, v)]
  | (k', v') :: rest =>
      if k' = k then (k', v) :: rest else (k', v') :: alistSet rest k v

def alistHas {α : Type} (d : List (String × α)) (k : String) : Bool :=
  (alistGet? d k).isSome

/-- The regex class `[#\w]` (ASCII portion of `\w`). -/
def wordOrHash (c : Char) : Bool :=
  c.isAlphanum || c = '_' || c = '#'

def isHexChar (c : Char) : Bool :=
  c.isDigit || ('a' ≤ c && c ≤ 'f') || ('A' ≤ c && c ≤ 'F')

/-- Case-insensitive literal prefix test (the keys are lower-case). -/
def ciHasPrefix (key l : List Char) : Bool :=
  lowerList (l.take key.length) = key

/-- `re.findall(key + "\s*([#\w]+)", html, re.IGNORECASE)`: scan left to
right; at a key occurrence skip whitespace and capture a maximal non-empty
`[#\w]+` run, continuing after it (non-overlapping matches). -/
def scanKeyCapture (fuel : Nat) (key l : List Char) : List String :=
  match fuel, l with
  | 0, _ => []
  | _, [] => []
  | fuel + 1, c :: rest =>
      if ciHasPrefix key (c :: rest) then
        let afterWs := ((c :: rest).drop key.length).dropWhile isPySpace
        let cap := afterWs.takeWhile wordOrHash
        if cap.isEmpty then scanKeyCapture fuel key rest
        else ⟨cap⟩ :: scanKeyCapture fuel key (afterWs.drop cap.length)
      else scanKeyCapture fuel key rest

/-- `re.findall("#([0-9a-fA-F]{3,6})", html)`: at `#`, capture greedily up
to six hex digits when at least three follow. -/
def scanHex (fuel : Nat) (l : List Char) : List String :=
  match fuel, l with
  | 0, _ => []
  | _, [] => []
  | fuel + 1, c :: rest =>
      if c = '#' then
        let run := rest.takeWhile isHexChar
        if 3 ≤ run.length then
          let cap := run.take 6
          ⟨cap⟩ :: scanHex fuel (rest.drop cap.length)
        else scanHex fuel rest
      else scanHex fuel rest

def parseDigits1 (l : List Char) : Option (List Char × List Char) :=
  let d := l.takeWhile Char.isDigit
  if d.isEmpty then Option.none else some (d, l.drop d.length)

/-- After the literal `rgb(`: `\s*(\d+)\s*,\s*(\d+)\s*,\s*(\d+)\s*\)`. -/
def rgbTail (l : List Char) : Option (List String × List Char) := do
  let (d1, l) ← parseDigits1 (l.dropWhile isPySpace)
  let l := l.dropWhile isPySpace
  match l with
  | ',' :: l => do
      let (d2, l) ← parseDigits1 (l.dropWhile isPySpace)
      let l := l.dropWhile isPySpace
      match l with
      | ',' :: l => do
          let (d3, l) ← parseDigits1 (l.dropWhile isPySpace)
          let l := l.dropWhile isPySpace
          match l with
          | ')' :: l => some ([(⟨d1⟩ : String), ⟨d2⟩, ⟨d3⟩], l)
          | _ => Option.none
      | _ => Option.none
  | _ => Option.none

/-- After the third group of `rgba(`: `\s*,\s*[\d.]+\s*\)` instead of `\)`. -/
def rgbaTail (l : List Char) : Option (List String × List Char) := do
  let (d1, l) ← parseDigits1 (l.dropWhile isPySpace)
  let l := l.dropWhile isPySpace
  match l with
  | ',' :: l => do
      let (d2, l) ← parseDigits1 (l.dropWhile isPySpace)
      let l := l.dropWhile isPySpace
      match l with
      | ',' :: l => do
          let (d3, l) ← parseDigits1 (l.dropWhile isPySpace)
          let l := l.dropWhile isPySpace
          match l with
          | ',' :: l =>
              let alpha := (l.dropWhile isPySpace).takeWhile (fun c => c.isDigit || c = '.')
              if alpha.isEmpty then Option.none
              else
                let l := ((l.dropWhile isPySpace).drop alpha.length).dropWhile isPySpace
                match l with
                | ')' :: l => some ([(⟨d1⟩ : String), ⟨d2⟩, ⟨d3⟩], l)
                | _ => Option.none
          | _ => Option.none
      | _ => Option.none
  | _ => Option.none

/-- `re.findall` for the `rgb(`/`rgba(` patterns, yielding group tuples. -/
def scanRgbLike (fuel : Nat) (key : List Char)
    (tail : List Char → Option (List String × List Char)) (l : List Char) :
    List ReMatch :=
  match fuel, l with
  | 0, _ => []
  | _, [] => []
  | fuel + 1, c :: rest =>
      if ciHasPrefix key (c :: rest) then
        match tail ((c :: rest).drop key.length) with
        | some (groups, l') => .t groups :: scanRgbLike fuel key tail l'
        | Option.none => scanRgbLike fuel key tail rest
      else scanRgbLike fuel key tail rest

/-- Lines 696-708: the six `re.findall` calls, concatenated in order. -/
def colorCandidates (htmlContent : String) : List ReMatch :=
  let l := htmlContent.toList
  let n := l.length
  ((scanKeyCapture n "color:".toList l).map ReMatch.s)
    ++ ((scanKeyCapture n "background-color:".toList l).map ReMatch.s)
    ++ ((scanKeyCapture n "border-color:".toList l).map ReMatch.s)
    ++ ((scanHex n l).map ReMatch.s)
    ++ scanRgbLike n "rgb(".toList rgbTail l
    ++ scanRgbLike n "rgba(".toList rgbaTail l

/-- The comprehension `[c for c in found_colors if c.startswith('#') or
c.isalnum()]`: raises `AttributeError` when it reaches a tuple result. -/
def filterColorMatches : List ReMatch → Except String (List String)
  | [] => .ok []
  | .s v :: rest => do
      let r ← filterColorMatches rest
      .ok (if strStartsWith v "#" || pyIsAlnum v then v :: r else r)
  | .t _ :: _ => .error "AttributeError: tuple object has no attribute startswith"

def defaultColors : List (String × String) :=
  [("primary", "#3b82f6"), ("secondary", "#f8fafc"), ("accent", "#10b981"),
   ("background", "#ffffff"), ("text", "#111827")]

def prefixHash (c : String) : String :=
  if strStartsWith c "#" then c else "#" ++ c

/-- Lines 712-715: the first two deduplicated values, `#`-prefixed, become
`primary` and `secondary`. -/
def assignFirstTwoColors (unique : List String) (base : List (String × String)) :
    List (String × String) :=
  let b1 := match unique.get? 0 with
    | some c => alistSet base "primary" (prefixHash c)
    | Option.none => base
  match unique.get? 1 with
  | some c => alistSet b1 "secondary" (prefixHash c)
  | Option.none => b1

/-- `_extract_colors_from_html`, parameterised by the iteration order of
`list(set(...))`: CPython set order depends on string hashes (and the
per-process hash seed), so the deduplication is modelled as an oracle
`uniq` constrained by `uniqAdmissible` below. -/
def extractColorsFromHtml (uniq : List String → List String)
    (htmlContent : String) : Except String (List (String × String)) := do
  let found := colorCandidates htmlContent
  if found.isEmpty then .ok defaultColors
  else do
    let filtered ← filterColorMatches found
    .ok (assignFirstTwoColors (uniq filtered) defaultColors)

/-- What Python guarantees about `list(set(l))`: the result enumerates the
distinct elements of `l`, each exactly once, in an unspecified order. -/
def uniqAdmissible (uniq : List String → List String) : Prop :=
  ∀ l, (uniq l).Nodup ∧ ∀ x, x ∈ uniq l ↔ x ∈ l

/-! ### GeneratorAgent (generator_agent.py) -/

/-- `config/system_config.py` 28-37. -/
structure GeneratedProject where
  framework : String
  project_structure : List (String × String)
  package_json : Py
  config_files : List (String × Py)
  assets : Py
  build_commands : Py
  dev_commands : Py
  deployment_config : Py

/-- The result of evaluating `self.model` inside `_generate_real_code`:
`GeneratorAgent.__init__` (lines 16-20) assigns only `config`, `logger`,
`project_templates` and `component_generators`, never `model`, so the
attribute lookup raises `AttributeError`. -/
def generatorModelLookup : Except String Py :=
  .error "AttributeError: GeneratorAgent object has no attribute model"

/-- The extension dispatch of `_generate_real_code` (lines 2852-2861).  A
non-string description is rendered with `str` here, where Python would embed
the object in the f-string (and return it unchanged in the `.json` branch);
no theorem depends on non-string descriptions. -/
def fallbackByExtension (fileName : String) (description : Py)
    (framework : String) : String :=
  let ext := pySplitextExt fileName
  if ext ∈ [".js", ".jsx", ".ts", ".tsx"] then
    "// " ++ fileName ++ " for " ++ framework ++ "\n// " ++ pyFmt description
      ++ "\nexport default function " ++ pyCapitalize (pySplitextRoot fileName)
      ++ "() \x7b\n  return (<div>" ++ pyFmt description ++ "</div>);\n\x7d"
  else if ext ∈ [".css", ".scss", ".less"] then
    "/* " ++ fileName ++ " for " ++ framework ++ "\n" ++ pyFmt description ++ "\n*/"
  else if ext = ".json" then
    (if description.truthy then pyFmt description else "\x7b\x7d")
  else
    "# " ++ fileName ++ " for " ++ framework ++ "\n# " ++ pyFmt description

/-- `_generate_real_code` (lines 2815-2861): empty descriptions return a
placeholder comment before anything else; otherwise `self.model` is
evaluated (raising in this program, see `generatorModelLookup`); a present
falsy model, or a model call failure, would fall through to
`fallbackByExtension` (the external generative call itself is opaque). -/
def generateRealCode (modelLookup : Except String Py) (fileName : String)
    (description : Py) (framework fileType : String) : Except String String := do
  if !description.truthy then
    .ok ("// No description provided for " ++ fileName)
  else do
    let m ← modelLookup
    if m.truthy then
      .error ("external model call for " ++ fileType ++ " is not modelled")
    else
      .ok (fallbackByExtension fileName description framework)

/-- The framework-resolution prologue of `generate_code` (lines 51-59).
`targetFramework` is accepted but never read — mirroring the source, whose
`target_framework` parameter is unused (`_determine_framework`, which would
use it, is never called). -/
def resolveFramework (a : List (String × Py)) (targetFramework : Option String) :
    String :=
  let _ := targetFramework
  let framework := "react"
  let framework :=
    match dictGet? a "framework" with
    | some (.dict f) =>
        match dictGet? f "primary" with
        | some (.str p) => if p ≠ "" then p else framework
        | _ => framework
    | _ => framework
  if framework = "" then "react" else framework

/-- `_determine_framework` (lines 178-197) — dead code in the source: it is
defined on the class but never invoked. -/
def determineFramework (analysis : Py) (targetFramework : Option String) :
    Except String String := do
  match targetFramework with
  | some t =>
      if t ≠ "" then .ok ⟨lowerList t.toList⟩
      else determineFrameworkDetected analysis
  | Option.none => determineFrameworkDetected analysis
where
  determineFrameworkDetected (analysis : Py) : Except String String := do
    let fw ← pyGet analysis "framework"
    let detected ←
      match fw with
      | .dict f => .ok (dictGetD f "primary" (.str "unknown"))
      | .none => .ok (.str "unknown")
      | _ => .error "AttributeError: object has no attribute get"
    match detected with
    | .str s =>
        let m := [("react", "react"), ("next", "next"), ("nextjs", "next"),
                  ("vue", "vue"), ("vuejs", "vue"), ("angular", "angular"),
                  ("svelte", "svelte"), ("unknown", "react")]
        .ok ((alistGet? m ⟨lowerList s.toList⟩).getD "react")
    | _ => .error "AttributeError: object has no attribute lower"

/-- `_generate_package_json` (lines 1625-1731): a base manifest updated per
framework; the `analysis` parameter is unused, as in the source. -/
def generatePackageJson (analysis : List (String × Py)) (framework : String) : Py :=
  let _ := analysis
  let base : List (String × Py) :=
    [("name", .str "generated-website"), ("version", .str "1.0.0"),
     ("description", .str "Generated website clone"), ("main", .str "index.js"),
     ("scripts", .dict []), ("dependencies", .dict []), ("devDependencies", .dict [])]
  let upd : List (String × Py) :=
    if framework = "react" then
      [("scripts", .dict [("start", .str "react-scripts start"),
         ("build", .str "react-scripts build"), ("test", .str "react-scripts test"),
         ("eject", .str "react-scripts eject")]),
       ("dependencies", .dict [("react", .str "^18.2.0"), ("react-dom", .str "^18.2.0"),
         ("react-router-dom", .str "^6.8.0"), ("react-scripts", .str "5.0.1")]),
       ("devDependencies", .dict [("tailwindcss", .str "^3.2.0"),
         ("autoprefixer", .str "^10.4.0"), ("postcss", .str "^8.4.0")])]
    else if framework = "next" then
      [("scripts", .dict [("dev", .str "next dev"), ("build", .str "next build"),
         ("start", .str "next start"), ("lint", .str "next lint")]),
       ("dependencies", .dict [("next", .str "^13.1.0"), ("react", .str "^18.2.0"),
         ("react-dom", .str "^18.2.0")]),
       ("devDependencies", .dict [("tailwindcss", .str "^3.2.0"),
         ("autoprefixer", .str "^10.4.0"), ("postcss", .str "^8.4.0"),
         ("eslint", .str "^8.0.0"), ("eslint-config-next", .str "^13.1.0")])]
    else if framework = "vue" then
      [("scripts", .dict [("serve", .str "vue-cli-service serve"),
         ("build", .str "vue-cli-service build"), ("lint", .str "vue-cli-service lint")]),
       ("dependencies", .dict [("vue", .str "^3.2.0"), ("vue-router", .str "^4.1.0")]),
       ("devDependencies", .dict [("@vue/cli-service", .str "^5.0.0"),
         ("tailwindcss", .str "^3.2.0"), ("autoprefixer", .str "^10.4.0"),
         ("postcss", .str "^8.4.0")])]
    else if framework = "angular" then
      [("scripts", .dict [("ng", .str "ng"), ("start", .str "ng serve"),
         ("build", .str "ng build"), ("test", .str "ng test"), ("lint", .str "ng lint")]),
       ("dependencies", .dict [("@angular/core", .str "^15.0.0"),
         ("@angular/common", .str "^15.0.0"),
         ("@angular/platform-browser", .str "^15.0.0"),
         ("@angular/router", .str "^15.0.0")]),
       ("devDependencies", .dict [("@angular/cli", .str "^15.0.0"),
         ("@angular/compiler-cli", .str "^15.0.0"), ("typescript", .str "^4.8.0")])]
    else if framework = "vanilla" then
      [("scripts", .dict [("start", .str "serve .")]),
       ("dependencies", .dict [("serve", .str "^14.2.0")])]
    else []
  .dict (pyDictUpdate base upd)

/-- `_generate_gitignore` (lines 1756-1817). -/
def generateGitignore (framework : String) : String :=
  let baseIgnore := "# Dependencies\nnode_modules/\nnpm-debug.log*\nyarn-debug.log*\nyarn-error.log*\n\n# Production builds\n/build\n/dist\n/.next\n/out\n\n# Environment variables\n.env\n.env.local\n.env.development.local\n.env.test.local\n.env.production.local\n\n# IDE and editor files\n.vscode/\n.idea/\n*.swp\n*.swo\n\n# OS generated files\n.DS_Store\n.DS_Store?\n._*\n.Spotlight-V100\n.Trashes\nehthumbs.db\nThumbs.db\n\n# Logs\nlogs\n*.log\n\n# Runtime data\npids\n*.pid\n*.seed\n*.pid.lock\n\n# Coverage directory used by tools like istanbul\ncoverage/\n\n# Temporary folders\ntmp/\ntemp/"
  if framework = "angular" then
    baseIgnore ++ "\n\n# Angular specific\n/e2e\n/coverage\n/.nyc_output"
  else baseIgnore

/-- `_generate_readme` (lines 1819-1884). -/
def generateReadme (framework : String) : String :=
  let npmCmd :=
    if framework = "next" then "run dev"
    else if framework = "react" then "start"
    else if framework = "vue" then "run serve"
    else "start"
  "# Generated Website Clone\n\nThis is a website clone generated using the Generator Agent.\n\n## Framework\n- **"
    ++ pyCapitalize framework
    ++ "**\n\n## Getting Started\n\n### Prerequisites\n- Node.js (v14 or higher)\n- npm or yarn\n\n### Installation\n\n1. Install dependencies:\n```bash\nnpm install\n```\n\n2. Start the development server:\n```bash\nnpm "
    ++ npmCmd
    ++ "\n```\n\n3. Open your browser to `http://localhost:3000`\n\n### Building for Production\n\n```bash\nnpm run build\n```\n\n## Project Structure\n\n```\nsrc/\n├── components/     # Reusable components\n├── pages/         # Page components\n├── utils/         # Utility functions\n└── styles/        # CSS styles\n```\n\n## Features\n\n- Responsive design\n- Modern UI components\n- Optimized performance\n- Cross-browser compatibility\n\n## Technologies Used\n\n- "
    ++ pyCapitalize framework
    ++ "\n- CSS3/Tailwind CSS\n- Modern JavaScript (ES6+)\n\n## Contributing\n\n1. Fork the repository\n2. Create a feature branch\n3. Make your changes\n4. Submit a pull request\n\n## License\n\nThis project is licensed under the MIT License.\n"

/-- Iterating a Python value with `for file_name in v` where the names are
used as dict keys: lists of strings and dict keys are modelled; other
iterables do not occur in this pipeline and are mapped to errors. -/
def pyIterKeys : Py → Except String (List String)
  | .list l => l.mapM (fun v =>
      match v with
      | .str s => Except.ok s
      | _ => Except.error "non-string file name (not modelled)")
  | .dict d => .ok (d.map Prod.fst)
  | _ => .error "TypeError: object is not iterable"

/-- One description lookup `component_descriptions.get(file_name, "")`
(evaluated lazily, per file, like the source). -/
def getDescD (descs : Py) (file : String) : Except String Py :=
  match descs with
  | .dict d => .ok (dictGetD d file (.str ""))
  | _ => .error "AttributeError: object has no attribute get"

/-- The per-kind generation loops of `generate_code` (lines 73-91). -/
def genFilesFold (modelLookup : Except String Py) (framework fileType : String)
    (descs : Py) (files : List String) (ps : List (String × String)) :
    Except String (List (String × String)) :=
  match files with
  | [] => .ok ps
  | f :: rest => do
      let desc ← getDescD descs f
      let content ← generateRealCode modelLookup f desc framework fileType
      genFilesFold modelLookup framework fileType descs rest (alistSet ps f content)

def reactIndexJsx : String :=
  "import React from \x27react\x27;\nimport ReactDOM from \x27react-dom/client\x27;\nimport App from \x27./App\x27;\nimport \x27./index.css\x27;\n\nReactDOM.createRoot(document.getElementById(\x27root\x27)).render(<App />);"

def reactAppJsx : String :=
  "export default function App() \x7b\n  return <div>Hello from App!</div>;\n\x7d"

def reactIndexHtml : String :=
  "<!DOCTYPE html>\n<html lang=\x27en\x27>\n  <head>\n    <meta charset=\x27UTF-8\x27 />\n    <meta name=\x27viewport\x27 content=\x27width=device-width, initial-scale=1.0\x27 />\n    <title>Cloned React App</title>\n  </head>\n  <body>\n    <div id=\x27root\x27></div>\n  </body>\n</html>"

def nextAppJs : String :=
  "export default function MyApp(\x7b Component, pageProps \x7d) \x7b\n  return <Component \x7b...pageProps\x7d />;\n\x7d"

def nextIndexJs : String :=
  "export default function Home() \x7b\n  return <div>Hello from Next.js Home!</div>;\n\x7d"

def vueMainJs : String :=
  "import \x7b createApp \x7d from \x27vue\x27;\nimport App from \x27./App.vue\x27;\ncreateApp(App).mount(\x27#app\x27);"

def vueAppVue : String :=
  "<template>\n  <div>Hello from Vue App!</div>\n</template>\n<script>\nexport default \x7b name: \x27App\x27 \x7d\n</script>"

/-- The vue `public/index.html` placeholder; the source literal on line 115
is unterminated (a raw newline inside a double-quoted Python string, a
`SyntaxError` in the file as shipped) — the evident intended text, with the
line break and the following indentation, is embedded. -/
def vueIndexHtml : String :=
  "<!DOCTYPE html>\n<html lang=\x27en\x27>\n  <head>\n    <meta charset=\x27UTF-8\x27 />\n    <meta name=\x27viewport\x27 content=\x27width=device-width, initial-scale=1.0\x27 />\n    <title>Cloned Vue App</title>\n  </head>\n  <body>\n    <div id=\x27app\x27></div>\n  </body>\n</html>"

def vanillaIndexHtml : String :=
  "<!DOCTYPE html>\n<html lang=\x27en\x27>\n  <head>\n    <meta charset=\x27UTF-8\x27 />\n    <meta name=\x27viewport\x27 content=\x27width=device-width, initial-scale=1.0\x27 />\n    <title>Cloned Vanilla App</title>\n  </head>\n  <body>\n    <h1>Hello from Vanilla JS!</h1>\n    <script src=\x27main.js\x27></script>\n  </body>\n</html>"

def vanillaMainJs : String :=
  "console.log(\x27Hello from Vanilla JS!\x27);"

/-- The per-framework minimal-template fallbacks of `generate_code`
(lines 96-121): each missing filename pattern is patched individually. -/
def addFrameworkFallbacks (framework : String) (ps : List (String × String)) :
    List (String × String) :=
  if framework = "react" then
    let ps := if !ps.any (fun kv => lowerEndsWith kv.1 "index.js" || lowerEndsWith kv.1 "index.jsx")
      then alistSet ps "src/index.jsx" reactIndexJsx else ps
    let ps := if !ps.any (fun kv => lowerEndsWith kv.1 "app.js" || lowerEndsWith kv.1 "app.jsx")
      then alistSet ps "src/App.jsx" reactAppJsx else ps
    if !ps.any (fun kv => lowerEndsWith kv.1 "index.html")
      then alistSet ps "public/index.html" reactIndexHtml else ps
  else if framework = "next" then
    let ps := if !ps.any (fun kv => lowerEndsWith kv.1 "_app.js" || lowerEndsWith kv.1 "_app.jsx")
      then alistSet ps "pages/_app.js" nextAppJs else ps
    if !ps.any (fun kv => lowerEndsWith kv.1 "index.js" || lowerEndsWith kv.1 "index.jsx")
      then alistSet ps "pages/index.js" nextIndexJs else ps
  else if framework = "vue" then
    let ps := if !ps.any (fun kv => lowerEndsWith kv.1 "main.js")
      then alistSet ps "src/main.js" vueMainJs else ps
    let ps := if !ps.any (fun kv => lowerEndsWith kv.1 "app.vue")
      then alistSet ps "src/App.vue" vueAppVue else ps
    if !ps.any (fun kv => lowerEndsWith kv.1 "index.html")
      then alistSet ps "public/index.html" vueIndexHtml else ps
  else if framework = "vanilla" then
    let ps := if !ps.any (fun kv => lowerEndsWith kv.1 "index.html")
      then alistSet ps "index.html" vanillaIndexHtml else ps
    if !ps.any (fun kv => lowerEndsWith kv.1 "main.js")
      then alistSet ps "main.js" vanillaMainJs else ps
  else ps

/-- Lines 64-66: the analysis manifest if it is a non-empty dict, else a
synthesized one. -/
def pjChoice (cr : List (String × Py)) (framework : String) : Py :=
  match dictGet? cr "package_json" with
  | some (.dict d) => if !d.isEmpty then .dict d else generatePackageJson [] framework
  | _ => generatePackageJson [] framework

/-- One step of lines 123-129: add `name` to the config files when it is in
neither the config files nor the generated files. -/
def ensureFileStep (ps : List (String × String)) (cf : List (String × Py))
    (name : String) (content : Py) : List (String × Py) :=
  if !alistHas cf name && !alistHas ps name then alistSet cf name content else cf

/-- Lines 123-133: unconditionally ensure `.gitignore`, `README.md` and
`package.json` exist among the generated or config files (the `package.json`
step of lines 131-133 checks only the config files and the manifest's
truthiness). -/
def ensureCommonFiles (framework : String) (ps : List (String × String))
    (cf : List (String × Py)) (packageJson : Py) : List (String × Py) :=
  let cf := ensureFileStep ps cf ".gitignore" (.str (generateGitignore framework))
  let cf := ensureFileStep ps cf "README.md" (.str (generateReadme framework))
  if !alistHas cf "package.json" && packageJson.truthy
    then alistSet cf "package.json" (.str (jsonDumps 0 packageJson)) else cf

/-- `generate_code` (lines 46-149).  The `_save_project` filesystem side
effect is not modelled.  A non-dict `config_files` value is mapped to an
error (Python would raise `TypeError` on the assignment for every non-dict
except a string that already contains all three required names). -/
def generateCode (analysis : Py) (targetFramework : Option String) :
    Except String GeneratedProject := do
  let a ← asDict analysis
  let framework := resolveFramework a targetFramework
  let cr ← asDict (dictGetD a "cloning_requirements" (Py.dict []))
  let packageJson := pjChoice cr framework
  let assets := dictGetD cr "assets" (Py.list [])
  let buildCommands := dictGetD cr "build_commands" (Py.list [])
  let devCommands := dictGetD cr "dev_commands" (Py.list [])
  let deploymentConfig := dictGetD cr "deployment_config" (Py.dict [])
  let componentFiles ← pyIterKeys (dictGetD cr "component_files" (Py.list []))
  let ps ← genFilesFold generatorModelLookup framework "component"
    (dictGetD a "components_description" (Py.dict [])) componentFiles []
  let pageFiles ← pyIterKeys (dictGetD cr "pages" (Py.list []))
  let ps ← genFilesFold generatorModelLookup framework "page"
    (dictGetD a "pages_description" (Py.dict [])) pageFiles ps
  let styleFiles ← pyIterKeys (dictGetD cr "styles" (Py.list []))
  let ps ← genFilesFold generatorModelLookup framework "style"
    (dictGetD a "styles_description" (Py.dict [])) styleFiles ps
  let cf ← asDict (dictGetD cr "config_files" (Py.dict []))
  let ps := addFrameworkFallbacks framework ps
  let cf := ensureCommonFiles framework ps cf packageJson
  .ok ⟨framework, ps, packageJson, cf, assets, buildCommands, devCommands,
       deploymentConfig⟩

/-! ### `WebsiteCloneOrchestrator._validate_generated_code`
(website_clone.py 85-111) -/

/-- `_validate_generated_code`: required-file presence, a truthy
`package_json.dependencies`, and a path containing `page` or `index`
case-insensitively.  The surrounding `try`/`except` returns `False` on any
exception (a non-dict manifest), so the function is total. -/
def validateGeneratedCode (gp : GeneratedProject) : Bool :=
  (["package.json", ".gitignore", "README.md"].all
     (fun f => alistHas gp.config_files f || alistHas gp.project_structure f))
  && (match gp.package_json with
      | .dict d => (dictGetD d "dependencies" Py.none).truthy
      | _ => false)
  && gp.project_structure.any
      (fun kv => strContains ⟨lowerList kv.1.toList⟩ "page"
        || strContains ⟨lowerList kv.1.toList⟩ "index")

/-! ### Lemma kit for dictionaries and folds -/

theorem dictGet?_dictSet_self (d : List (String × Py)) (k : String) (v : Py) :
    dictGet? (dictSet d k v) k = some v := by
  induction d with
  | nil => simp [dictSet, dictGet?]
  | cons kv rest ih =>
      by_cases h : kv.1 = k
      · simp [dictSet, dictGet?, h]
      · simp [dictSet, dictGet?, h, ih]

theorem dictGet?_dictSet_ne (d : List (String × Py)) (k k' : String) (v : Py)
    (h : k' ≠ k) : dictGet? (dictSet d k' v) k = dictGet? d k := by
  induction d with
  | nil => simp [dictSet, dictGet?, h]
  | cons kv rest ih =>
      by_cases h2 : kv.1 = k'
      · simp [dictSet, dictGet?, h2, h]
      · simp only [dictSet, h2, if_false]
        by_cases h3 : kv.1 = k
        · simp [dictGet?, h3]
        · simp [dictGet?, h3, ih]

theorem dictSet_self (d : List (String × Py)) (k : String) (v : Py)
    (h : dictGet? d k = some v) : dictSet d k v = d := by
  induction d with
  | nil => simp [dictGet?] at h
  | cons kv rest ih =>
      obtain ⟨k1, v1⟩ := kv
      by_cases h2 : k1 = k
      · simp [dictGet?, h2] at h
        subst h2; subst h
        simp [dictSet]
      · simp [dictGet?, h2] at h
        simp [dictSet, h2, ih h]

theorem dictHas_dictSet_of (d : List (String × Py)) (k k' : String) (v : Py)
    (h : dictHas d k = true) : dictHas (dictSet d k' v) k = true := by
  by_cases h2 : k' = k
  · subst h2; simp [dictHas, dictGet?_dictSet_self]
  · rwa [dictHas, dictGet?_dictSet_ne d k k' v h2]

theorem dictGet?_append_of_some (d l : List (String × Py)) (k : String) (v : Py)
    (h : dictGet? d k = some v) : dictGet? (d ++ l) k = some v := by
  induction d with
  | nil => simp [dictGet?] at h
  | cons kv rest ih =>
      by_cases h2 : kv.1 = k
      · simp [dictGet?, h2] at h ⊢; exact h
      · simp [dictGet?, h2] at h ⊢; exact ih h

theorem dictGet?_append_of_none (d l : List (String × Py)) (k : String)
    (h : dictGet? d k = Option.none) : dictGet? (d ++ l) k = dictGet? l k := by
  induction d with
  | nil => simp
  | cons kv rest ih =>
      by_cases h2 : kv.1 = k
      · simp [dictGet?, h2] at h
      · simp [dictGet?, h2] at h ⊢; exact ih h

theorem ensureFoldl_preserves (fs : List String) (a : List (String × Py))
    (k : String) (v : Py) (h : dictGet? a k = some v) :
    dictGet? (fs.foldl ensureFieldStep a) k = some v := by
  induction fs generalizing a with
  | nil => simpa using h
  | cons f fs ih =>
      simp only [List.foldl_cons]
      apply ih
      unfold ensureFieldStep
      by_cases hf : dictHas a f
      · simpa [hf] using h
      · simp only [hf, if_false]
        exact dictGet?_append_of_some _ _ _ _ h

theorem ensureFoldl_absent (fs : List String) (a : List (String × Py))
    (k : String) (hk : k ∈ fs) (h : dictGet? a k = Option.none) :
    dictGet? (fs.foldl ensureFieldStep a) k = some (requiredFieldDefault k) := by
  induction fs generalizing a with
  | nil => simp at hk
  | cons f fs ih =>
      simp only [List.foldl_cons]
      by_cases hfk : f = k
      · subst hfk
        have hhas : dictHas a f = false := by simp [dictHas, h]
        have hstep : dictGet? (ensureFieldStep a f) f = some (requiredFieldDefault f) := by
          unfold ensureFieldStep
          rw [hhas]
          simp only [Bool.false_eq_true, if_false]
          rw [dictGet?_append_of_none _ _ _ h]
          simp [dictGet?]
        exact ensureFoldl_preserves fs _ _ _ hstep
      · have hk' : k ∈ fs := by
          cases hk with
          | head => exact absurd rfl hfk
          | tail _ h2 => exact h2
        apply ih _ hk'
        unfold ensureFieldStep
        by_cases hf : dictHas a f
        · simpa [hf] using h
        · simp only [hf, Bool.false_eq_true, if_false]
          rw [dictGet?_append_of_none _ _ _ h]
          simp [dictGet?, hfk]

theorem ensureFoldl_has (fs : List String) (a : List (String × Py))
    (k : String) (hk : k ∈ fs) :
    dictHas (fs.foldl ensureFieldStep a) k = true := by
  cases hg : dictGet? a k with
  | none => simp [dictHas, ensureFoldl_absent fs a k hk hg]
  | some v => simp [dictHas, ensureFoldl_preserves fs a k v hg]

theorem ensureFoldl_id (fs : List String) (a : List (String × Py))
    (h : ∀ f ∈ fs, dictHas a f = true) : fs.foldl ensureFieldStep a = a := by
  induction fs with
  | nil => rfl
  | cons f fs ih =>
      simp only [List.foldl_cons]
      have hstep : ensureFieldStep a f = a := by
        unfold ensureFieldStep
        simp [h f (by simp)]
      rw [hstep]
      exact ih (fun g hg => h g (by simp [hg]))

/-- Truthiness of a looked-up value implies presence. -/
theorem dictHas_of_truthy (d : List (String × Py)) (k : String)
    (h : (dictGetD d k Py.none).truthy = true) : dictHas d k = true := by
  unfold dictGetD at h
  cases hg : dictGet? d k with
  | none => rw [hg] at h; simp [Py.truthy] at h
  | some v => simp [dictHas, hg]

/-! ### Claim theorems -/

/-- C2: the claim says a supplied framework override is used by the Project
Generator; in the code, `generate_code` never reads its `target_framework`
parameter (the resolution depends only on `spec.framework.primary`, with
default `react`), so an analysis declaring `vue` yields `vue` even under an
explicit `react` override.  The dead helper `_determine_framework` would
honour the override, confirming the intent the code fails to implement. -/
theorem c2_generator_ignores_override :
    (∀ (a : List (String × Py)) (t : Option String),
      resolveFramework a t = resolveFramework a Option.none)
    ∧ resolveFramework [("framework", Py.dict [("primary", Py.str "vue")])]
        (some "react") = "vue"
    ∧ determineFramework (Py.dict [("framework", Py.dict [("primary", Py.str "vue")])])
        (some "react") = .ok "react" :=
  ⟨fun _ _ => rfl, rfl, rfl⟩

/-- C3: the claim says the heuristic text-segmentation fallback never throws
for any detector-producible hints, including empty lists; but
`_detect_framework_from_html` returns `{"frameworks": [], "css_frameworks":
[], "cms": []}` on HTML with no framework keywords (a truthy dict), and
`_extract_from_text_response` then evaluates
`framework_hints.get("frameworks", ["vanilla"])[0]`, raising `IndexError`
on the empty list.  The middle conjunct shows extraction does fail first on
such input, so this fallback is reached. -/
theorem c3_heuristic_fallback_indexerror :
    detectFrameworkFromHtml "<p>hi</p>" = ⟨[], [], []⟩
    ∧ extractJsonStage "hello world" = Option.none
    ∧ extractFromTextResponse "hello world" (some ⟨[], [], []⟩)
        = .error "IndexError: list index out of range" :=
  ⟨rfl, rfl, rfl⟩

/-- C4: the claim says the file-content generator falls back by extension
and never throws when the model is absent; but `GeneratorAgent.__init__`
never assigns `self.model`, so `_generate_real_code` raises
`AttributeError` for every non-empty description, and an empty description
returns the `// No description provided` placeholder before the extension
dispatch (so a `.json` path with an empty description never yields `{}`). -/
theorem c4_render_attributeerror :
    generateRealCode generatorModelLookup "components/Header.jsx"
        (Py.str "Header with hero text") "react" "component"
      = .error "AttributeError: GeneratorAgent object has no attribute model"
    ∧ generateRealCode generatorModelLookup "data.json" (Py.str "") "react" "page"
      = .ok "// No description provided for data.json" :=
  ⟨rfl, rfl⟩

/-- Shared: the dependency check alone sinks validation. -/
theorem validate_false_of_empty_deps (gp : GeneratedProject)
    (d : List (String × Py)) (hpj : gp.package_json = .dict d)
    (hdep : dictGet? d "dependencies" = some (.dict [])) :
    validateGeneratedCode gp = false := by
  unfold validateGeneratedCode
  rw [hpj]
  simp [dictGetD, hdep, Py.truthy]

/-- C9: validation returns `False` on a project whose manifest has an empty
`dependencies` mapping, regardless of which required files and page/index
paths are present (the function is modelled total: the source wraps every
check in `try`/`except` returning `False`, so it never throws). -/
theorem c9_empty_dependencies_fail (gp : GeneratedProject)
    (d : List (String × Py)) (hpj : gp.package_json = .dict d)
    (hdep : dictGet? d "dependencies" = some (.dict [])) :
    validateGeneratedCode gp = false :=
  validate_false_of_empty_deps gp d hpj hdep

theorem c9_empty_dependencies_fail_witness :
    validateGeneratedCode
      ⟨"react", [("pages/index.js", "x")],
       .dict [("name", .str "a"), ("dependencies", .dict [])],
       [("package.json", .str "x"), (".gitignore", .str "x"), ("README.md", .str "x")],
       .list [], .list [], .list [], .dict []⟩ = false :=
  c9_empty_dependencies_fail _ [("name", .str "a"), ("dependencies", .dict [])] rfl rfl

theorem exceptBind_ok {α β : Type} {x : Except String α} {f : α → Except String β}
    {b : β} (h : x >>= f = .ok b) : ∃ a, x = .ok a ∧ f a = .ok b := by
  cases x with
  | error e => exact absurd h (by simp [Bind.bind, Except.bind])
  | ok a => exact ⟨a, rfl, by simpa [Bind.bind, Except.bind] using h⟩

theorem asDict_ok {x : Py} {d : List (String × Py)} (h : asDict x = .ok d) :
    x = .dict d := by
  cases x <;> simp [asDict] at h
  rw [h]

/-- Any successful run of `generate_code` has the shape fixed by its tail:
the resolved framework, the chosen manifest, and config files obtained by
the `ensureCommonFiles` step. -/
theorem generateCode_ok_shape {analysis : Py} {t : Option String}
    {proj : GeneratedProject} (h : generateCode analysis t = .ok proj) :
    ∃ a cr cf0 ps,
      analysis = .dict a
      ∧ asDict (dictGetD a "cloning_requirements" (Py.dict [])) = .ok cr
      ∧ proj.framework = resolveFramework a t
      ∧ proj.package_json = pjChoice cr (resolveFramework a t)
      ∧ proj.project_structure = ps
      ∧ proj.config_files
          = ensureCommonFiles (resolveFramework a t) ps cf0
              (pjChoice cr (resolveFramework a t)) := by
  unfold generateCode at h
  obtain ⟨a, ha, h⟩ := exceptBind_ok h
  try dsimp only at h
  obtain ⟨cr, hcr, h⟩ := exceptBind_ok h
  try dsimp only at h
  obtain ⟨compFiles, hcf, h⟩ := exceptBind_ok h
  try dsimp only at h
  obtain ⟨ps1, hps1, h⟩ := exceptBind_ok h
  try dsimp only at h
  obtain ⟨pageFiles, hpf, h⟩ := exceptBind_ok h
  try dsimp only at h
  obtain ⟨ps2, hps2, h⟩ := exceptBind_ok h
  try dsimp only at h
  obtain ⟨styleFiles, hsf, h⟩ := exceptBind_ok h
  try dsimp only at h
  obtain ⟨ps3, hps3, h⟩ := exceptBind_ok h
  try dsimp only at h
  obtain ⟨cf0, hcf0, h⟩ := exceptBind_ok h
  try dsimp only at h
  have hproj := (Except.ok.inj h).symm
  refine ⟨a, cr, cf0, addFrameworkFallbacks (resolveFramework a t) ps3,
    asDict_ok ha, hcr, ?_, ?_, ?_, ?_⟩ <;> rw [hproj]

theorem alistGet?_alistSet_self {α : Type} (d : List (String × α)) (k : String)
    (v : α) : alistGet? (alistSet d k v) k = some v := by
  induction d with
  | nil => simp [alistSet, alistGet?]
  | cons kv rest ih =>
      by_cases h : kv.1 = k
      · simp [alistSet, alistGet?, h]
      · simp [alistSet, alistGet?, h, ih]

theorem alistGet?_alistSet_ne {α : Type} (d : List (String × α)) (k k' : String)
    (v : α) (h : k' ≠ k) : alistGet? (alistSet d k' v) k = alistGet? d k := by
  induction d with
  | nil => simp [alistSet, alistGet?, h]
  | cons kv rest ih =>
      by_cases h2 : kv.1 = k'
      · simp [alistSet, alistGet?, h2, h]
      · simp only [alistSet, h2, if_false]
        by_cases h3 : kv.1 = k
        · simp [alistGet?, h3]
        · simp [alistGet?, h3, ih]

theorem alistHas_alistSet_self {α : Type} (d : List (String × α)) (k : String)
    (v : α) : alistHas (alistSet d k v) k = true := by
  simp [alistHas, alistGet?_alistSet_self]

theorem alistHas_alistSet_of {α : Type} (d : List (String × α)) (k k' : String)
    (v : α) (h : alistHas d k = true) : alistHas (alistSet d k' v) k = true := by
  by_cases h2 : k' = k
  · subst h2; exact alistHas_alistSet_self d k' v
  · rwa [alistHas, alistGet?_alistSet_ne d k k' v h2]

theorem alistHas_ite_set {α : Type} (c : Bool) (d : List (String × α))
    (k : String) (v : α) (g : String) (h : alistHas d g = true) :
    alistHas (if c then alistSet d k v else d) g = true := by
  cases c
  · simpa using h
  · simpa using alistHas_alistSet_of d g k v h

theorem dictSet_ne_nil (d : List (String × Py)) (k : String) (v : Py) :
    dictSet d k v ≠ [] := by
  cases d with
  | nil => simp [dictSet]
  | cons kv rest =>
      unfold dictSet
      by_cases h : kv.1 = k <;> simp [h]

theorem pyDictUpdate_ne_nil (u d : List (String × Py)) (h : d ≠ []) :
    pyDictUpdate d u ≠ [] := by
  induction u generalizing d with
  | nil => simpa [pyDictUpdate] using h
  | cons kv rest ih =>
      unfold pyDictUpdate at ih ⊢
      simp only [List.foldl_cons]
      exact ih _ (dictSet_ne_nil d kv.1 kv.2)

theorem truthy_dict_pyDictUpdate (d u : List (String × Py)) (h : d ≠ []) :
    (Py.dict (pyDictUpdate d u)).truthy = true := by
  have h2 := pyDictUpdate_ne_nil u d h
  simp [Py.truthy, List.isEmpty_iff, h2]

theorem generatePackageJson_truthy (analysis : List (String × Py))
    (framework : String) : (generatePackageJson analysis framework).truthy = true := by
  unfold generatePackageJson
  exact truthy_dict_pyDictUpdate _ _ (by simp)

theorem pjChoice_truthy (cr : List (String × Py)) (framework : String) :
    (pjChoice cr framework).truthy = true := by
  unfold pjChoice
  cases hg : dictGet? cr "package_json" with
  | none => exact generatePackageJson_truthy [] framework
  | some v =>
      cases v with
      | dict d =>
          cases hd : d.isEmpty with
          | true => simpa [hd] using generatePackageJson_truthy [] framework
          | false => simp [hd, Py.truthy]
      | none => exact generatePackageJson_truthy [] framework
      | bool b => exact generatePackageJson_truthy [] framework
      | int n => exact generatePackageJson_truthy [] framework
      | str s => exact generatePackageJson_truthy [] framework
      | list l => exact generatePackageJson_truthy [] framework

theorem ensureFileStep_has_or (ps : List (String × String))
    (cf : List (String × Py)) (name : String) (content : Py) :
    (alistHas (ensureFileStep ps cf name content) name || alistHas ps name) = true := by
  unfold ensureFileStep
  cases hcf : alistHas cf name with
  | true => simp [hcf]
  | false =>
      cases hps : alistHas ps name with
      | true => simp [hcf, hps]
      | false => simp [hcf, hps, alistHas_alistSet_self]

theorem ensureFileStep_mono (ps : List (String × String))
    (cf : List (String × Py)) (name : String) (content : Py) (g : String)
    (h : alistHas cf g = true) :
    alistHas (ensureFileStep ps cf name content) g = true := by
  unfold ensureFileStep
  exact alistHas_ite_set _ _ _ _ _ h

theorem ensureCommonFiles_gitignore (fw : String) (ps : List (String × String))
    (cf : List (String × Py)) (pj : Py) :
    (alistHas (ensureCommonFiles fw ps cf pj) ".gitignore"
      || alistHas ps ".gitignore") = true := by
  unfold ensureCommonFiles
  have h1 := ensureFileStep_has_or ps cf ".gitignore" (.str (generateGitignore fw))
  cases hps : alistHas ps ".gitignore" with
  | true => simp [hps]
  | false =>
      rw [hps, Bool.or_false] at h1
      rw [Bool.or_false]
      dsimp only
      exact alistHas_ite_set _ _ _ _ _ (ensureFileStep_mono _ _ _ _ _ h1)

theorem ensureCommonFiles_readme (fw : String) (ps : List (String × String))
    (cf : List (String × Py)) (pj : Py) :
    (alistHas (ensureCommonFiles fw ps cf pj) "README.md"
      || alistHas ps "README.md") = true := by
  unfold ensureCommonFiles
  have h1 := ensureFileStep_has_or ps
    (ensureFileStep ps cf ".gitignore" (.str (generateGitignore fw)))
    "README.md" (.str (generateReadme fw))
  cases hps : alistHas ps "README.md" with
  | true => simp [hps]
  | false =>
      rw [hps, Bool.or_false] at h1
      rw [Bool.or_false]
      dsimp only
      exact alistHas_ite_set _ _ _ _ _ h1

theorem ensureCommonFiles_packagejson (fw : String) (ps : List (String × String))
    (cf : List (String × Py)) (pj : Py) (hpj : pj.truthy = true) :
    alistHas (ensureCommonFiles fw ps cf pj) "package.json" = true := by
  unfold ensureCommonFiles
  cases hcf : alistHas
      (ensureFileStep ps (ensureFileStep ps cf ".gitignore"
        (.str (generateGitignore fw))) "README.md" (.str (generateReadme fw)))
      "package.json" with
  | true =>
      dsimp only
      simp [hcf]
  | false =>
      dsimp only
      simp [hcf, hpj, alistHas_alistSet_self]

/-- C8: every successfully generated project contains `package.json`,
`.gitignore` and `README.md` in the union of its generated and config
files; and with `framework.primary = "vanilla"` and an absent
`cloning_requirements` (no component/page/style files, no config files)
generation succeeds and additionally yields `index.html` and `main.js`. -/
theorem c8_required_files :
    (∀ (analysis : Py) (t : Option String) (proj : GeneratedProject),
      generateCode analysis t = .ok proj →
      ∀ f ∈ ["package.json", ".gitignore", "README.md"],
        (alistHas proj.config_files f || alistHas proj.project_structure f) = true)
    ∧ (∀ (a : List (String × Py)) (fw : List (String × Py)),
      dictGet? a "framework" = some (.dict fw) →
      dictGet? fw "primary" = some (.str "vanilla") →
      dictGet? a "cloning_requirements" = Option.none →
      ∃ proj, generateCode (.dict a) Option.none = .ok proj
        ∧ alistHas proj.project_structure "index.html" = true
        ∧ alistHas proj.project_structure "main.js" = true
        ∧ ∀ f ∈ ["package.json", ".gitignore", "README.md"],
            (alistHas proj.config_files f || alistHas proj.project_structure f) = true) := by
  constructor
  · intro analysis t proj h f hf
    obtain ⟨a, cr, cf0, ps, ha, hcr, hfw, hpj, hps, hcf⟩ := generateCode_ok_shape h
    rw [hcf, hps]
    simp only [List.mem_cons, List.not_mem_nil, or_false] at hf
    rcases hf with rfl | rfl | rfl
    · rw [ensureCommonFiles_packagejson _ _ _ _ (pjChoice_truthy cr _)]
      simp
    · exact ensureCommonFiles_gitignore _ _ _ _
    · exact ensureCommonFiles_readme _ _ _ _
  · intro a fw h1 h2 h3
    have hfw : resolveFramework a Option.none = "vanilla" := by
      unfold resolveFramework
      rw [h1]
      dsimp only
      rw [h2]
      rfl
    have hcrD : dictGetD a "cloning_requirements" (Py.dict []) = Py.dict [] := by
      simp [dictGetD, h3]
    have hgen : generateCode (.dict a) Option.none = .ok
        ⟨"vanilla",
         addFrameworkFallbacks "vanilla" [],
         generatePackageJson [] "vanilla",
         ensureCommonFiles "vanilla" (addFrameworkFallbacks "vanilla" []) []
           (generatePackageJson [] "vanilla"),
         .list [], .list [], .list [], .dict []⟩ := by
      unfold generateCode
      dsimp only [asDict, Bind.bind, Except.bind]
      rw [hcrD, hfw]
      rfl
    refine ⟨_, hgen, rfl, rfl, ?_⟩
    dsimp only
    intro f hf
    simp only [List.mem_cons, List.not_mem_nil, or_false] at hf
    rcases hf with rfl | rfl | rfl
    · rw [ensureCommonFiles_packagejson _ _ _ _ (generatePackageJson_truthy [] _)]
      simp
    · exact ensureCommonFiles_gitignore _ _ _ _
    · exact ensureCommonFiles_readme _ _ _ _

theorem c8_required_files_witness :
    ∃ proj, generateCode (.dict [("framework", Py.dict [("primary", Py.str "vanilla")])])
        Option.none = .ok proj
      ∧ alistHas proj.project_structure "index.html" = true
      ∧ alistHas proj.project_structure "main.js" = true
      ∧ ∀ f ∈ ["package.json", ".gitignore", "README.md"],
          (alistHas proj.config_files f || alistHas proj.project_structure f) = true :=
  c8_required_files.2 [("framework", Py.dict [("primary", Py.str "vanilla")])]
    [("primary", Py.str "vanilla")] rfl rfl rfl

/-- `cloning_requirements.package_json` absent, an empty dict, or not a dict. -/
def crPackageJsonInvalid (cr : List (String × Py)) : Bool :=
  match dictGet? cr "package_json" with
  | some (.dict d) => d.isEmpty
  | some _ => true
  | Option.none => true

theorem pjChoice_of_invalid (cr : List (String × Py)) (fw : String)
    (h : crPackageJsonInvalid cr = true) :
    pjChoice cr fw = generatePackageJson [] fw := by
  unfold crPackageJsonInvalid at h
  unfold pjChoice
  cases hg : dictGet? cr "package_json" with
  | none => rfl
  | some v =>
      rw [hg] at h
      cases v with
      | dict d => simp at h; simp [h]
      | none => rfl
      | bool b => rfl
      | int n => rfl
      | str s => rfl
      | list l => rfl

theorem generatePackageJson_deps_empty (fw : String)
    (h : fw ∉ ["react", "next", "vue", "angular", "vanilla"]) :
    ∃ d, generatePackageJson [] fw = .dict d
      ∧ dictGet? d "dependencies" = some (.dict []) := by
  simp only [List.mem_cons, List.not_mem_nil, or_false, not_or] at h
  obtain ⟨h1, h2, h3, h4, h5⟩ := h
  unfold generatePackageJson
  rw [if_neg h1, if_neg h2, if_neg h3, if_neg h4, if_neg h5]
  exact ⟨_, rfl, rfl⟩

/-- C10: when `cloning_requirements.package_json` is absent, empty or not a
mapping, the synthesized manifest has a non-empty `dependencies` only for
the five frameworks `_generate_package_json` special-cases; for every other
resolved framework the dependencies mapping stays empty, so orchestrator
validation necessarily fails for any such project. -/
theorem c10_unknown_framework_empty_deps :
    (∀ fw : String, fw ∉ ["react", "next", "vue", "angular", "vanilla"] →
      ∃ d, generatePackageJson [] fw = .dict d
        ∧ dictGet? d "dependencies" = some (.dict []))
    ∧ (∀ (analysis : Py) (t : Option String) (proj : GeneratedProject)
         (a cr : List (String × Py)),
       analysis = .dict a →
       asDict (dictGetD a "cloning_requirements" (Py.dict [])) = .ok cr →
       crPackageJsonInvalid cr = true →
       generateCode analysis t = .ok proj →
       proj.framework ∉ ["react", "next", "vue", "angular", "vanilla"] →
       validateGeneratedCode proj = false) := by
  constructor
  · exact generatePackageJson_deps_empty
  · intro analysis t proj a cr ha hcr hinv h hfw
    obtain ⟨a', cr', cf0, ps, ha', hcr', hfwE, hpj, hps, hcf⟩ := generateCode_ok_shape h
    have haa : a = a' := by
      rw [ha] at ha'
      exact Py.dict.inj ha'
    subst haa
    have hcc : cr = cr' := by
      rw [hcr] at hcr'
      exact Except.ok.inj hcr'
    subst hcc
    rw [pjChoice_of_invalid cr _ hinv, ← hfwE] at hpj
    obtain ⟨d, hd, hdep⟩ := generatePackageJson_deps_empty proj.framework hfw
    exact validate_false_of_empty_deps proj d (hpj.trans hd) hdep

theorem c10_unknown_framework_empty_deps_witness :
    validateGeneratedCode
      (match generateCode (.dict [("framework", Py.dict [("primary", Py.str "svelte")])])
          Option.none with
       | .ok proj => proj
       | .error _ => ⟨"", [], .dict [], [], .list [], .list [], .list [], .dict []⟩)
      = false := by
  have h := c10_unknown_framework_empty_deps.2
    (.dict [("framework", Py.dict [("primary", Py.str "svelte")])]) Option.none
  exact h _ [("framework", Py.dict [("primary", Py.str "svelte")])] [] rfl rfl rfl rfl
    (by decide)

theorem two_le_length_of_mem {α : Type} {a b : α} {l : List α}
    (ha : a ∈ l) (hb : b ∈ l) (hab : a ≠ b) : 2 ≤ l.length := by
  cases l with
  | nil => simp at ha
  | cons x xs =>
      cases xs with
      | nil =>
          simp only [List.mem_singleton] at ha hb
          exact absurd (ha.trans hb.symm) hab
      | cons y ys => simp [Nat.succ_le_succ, Nat.le_add_left]

/-- The HTML of the claim's example. -/
def c5Html : String := "color: #ff0000; background-color: #00ff00;"

/-- C5 (counterexample): the claim asserts the first two distinct colour
matches are assigned in source order, so `primary = "#ff0000"` on the
example HTML; but the source deduplicates with `list(set(...))`, whose
order is hash-dependent, and under the admissible enumeration order
`reverse ∘ dedup` the code assigns `primary = "#00ff00"` instead. -/
theorem c5_counterexample :
    uniqAdmissible (fun l => l.reverse.dedup)
    ∧ extractColorsFromHtml (fun l => l.reverse.dedup) c5Html
        = .ok [("primary", "#00ff00"), ("secondary", "#ff0000"),
               ("accent", "#10b981"), ("background", "#ffffff"), ("text", "#111827")]
    ∧ ("#00ff00" : String) ≠ "#ff0000" := by
  refine ⟨fun l => ⟨List.nodup_dedup _, fun x => ?_⟩, by rfl, by decide⟩
  simp [List.mem_dedup, List.mem_reverse]

/-- C5 (amended): the deduplication order is implementation-defined, so on
the example HTML the code assigns `primary` and `secondary` some pair drawn
from the two matched colours `#ff0000`/`#00ff00` (every match, `#`-prefixed,
is one of these), while `accent`, `background` and `text` keep their
built-in defaults — for every admissible `list(set(...))` order. -/
theorem c5_colors_amended (uniq : List String → List String)
    (hu : uniqAdmissible uniq) :
    ∃ cols, extractColorsFromHtml uniq c5Html = .ok cols
      ∧ alistGet? cols "primary" ∈ [some "#ff0000", some "#00ff00"]
      ∧ alistGet? cols "secondary" ∈ [some "#ff0000", some "#00ff00"]
      ∧ alistGet? cols "accent" = some "#10b981"
      ∧ alistGet? cols "background" = some "#ffffff"
      ∧ alistGet? cols "text" = some "#111827" := by
  have hcand : colorCandidates c5Html
      = [.s "#ff0000", .s "#00ff00", .s "#00ff00", .s "ff0000", .s "00ff00"] := by rfl
  have hfilter : filterColorMatches
      [.s "#ff0000", .s "#00ff00", .s "#00ff00", .s "ff0000", .s "00ff00"]
      = .ok ["#ff0000", "#00ff00", "#00ff00", "ff0000", "00ff00"] := by rfl
  have hrun : extractColorsFromHtml uniq c5Html
      = .ok (assignFirstTwoColors
          (uniq ["#ff0000", "#00ff00", "#00ff00", "ff0000", "00ff00"]) defaultColors) := by
    unfold extractColorsFromHtml
    rw [hcand]
    dsimp only [List.isEmpty_cons, Bind.bind, Except.bind]
    rw [hfilter]
    rfl
  obtain ⟨hnodup, hmem⟩ := hu ["#ff0000", "#00ff00", "#00ff00", "ff0000", "00ff00"]
  set u := uniq ["#ff0000", "#00ff00", "#00ff00", "ff0000", "00ff00"] with hudef
  have hm1 : "#ff0000" ∈ u := (hmem _).mpr (by simp)
  have hm2 : "#00ff00" ∈ u := (hmem _).mpr (by simp)
  have hlen : 2 ≤ u.length := two_le_length_of_mem hm1 hm2 (by decide)
  have h0 : ∃ c0, u.get? 0 = some c0 := by
    cases hg : u.get? 0 with
    | some c => exact ⟨c, rfl⟩
    | none => rw [List.get?_eq_none] at hg; omega
  have h1 : ∃ c1, u.get? 1 = some c1 := by
    cases hg : u.get? 1 with
    | some c => exact ⟨c, rfl⟩
    | none => rw [List.get?_eq_none] at hg; omega
  obtain ⟨c0, hg0⟩ := h0
  obtain ⟨c1, hg1⟩ := h1
  have hc0 : c0 ∈ ["#ff0000", "#00ff00", "#00ff00", "ff0000", "00ff00"] :=
    (hmem c0).mp (List.get?_mem hg0)
  have hc1 : c1 ∈ ["#ff0000", "#00ff00", "#00ff00", "ff0000", "00ff00"] :=
    (hmem c1).mp (List.get?_mem hg1)
  have hassign : assignFirstTwoColors u defaultColors
      = alistSet (alistSet defaultColors "primary" (prefixHash c0))
          "secondary" (prefixHash c1) := by
    unfold assignFirstTwoColors
    rw [hg0, hg1]
  have hpfx0 : prefixHash c0 ∈ ["#ff0000", "#00ff00"] := by
    simp only [List.mem_cons, List.not_mem_nil, or_false] at hc0
    rcases hc0 with rfl | rfl | rfl | rfl | rfl <;> simp [prefixHash, strStartsWith]
  have hpfx1 : prefixHash c1 ∈ ["#ff0000", "#00ff00"] := by
    simp only [List.mem_cons, List.not_mem_nil, or_false] at hc1
    rcases hc1 with rfl | rfl | rfl | rfl | rfl <;> simp [prefixHash, strStartsWith]
  refine ⟨_, hrun, ?_, ?_, ?_, ?_, ?_⟩ <;> rw [hassign]
  · rw [alistGet?_alistSet_ne _ _ _ _ (by decide), alistGet?_alistSet_self]
    simp only [List.mem_cons, List.not_mem_nil, or_false] at hpfx0 ⊢
    rcases hpfx0 with h | h <;> simp [h]
  · rw [alistGet?_alistSet_self]
    simp only [List.mem_cons, List.not_mem_nil, or_false] at hpfx1 ⊢
    rcases hpfx1 with h | h <;> simp [h]
  · rw [alistGet?_alistSet_ne _ _ _ _ (by decide),
      alistGet?_alistSet_ne _ _ _ _ (by decide)]
    rfl
  · rw [alistGet?_alistSet_ne _ _ _ _ (by decide),
      alistGet?_alistSet_ne _ _ _ _ (by decide)]
    rfl
  · rw [alistGet?_alistSet_ne _ _ _ _ (by decide),
      alistGet?_alistSet_ne _ _ _ _ (by decide)]
    rfl

theorem c5_colors_amended_witness :
    ∃ cols, extractColorsFromHtml (fun l => l.reverse.dedup) c5Html = .ok cols
      ∧ alistGet? cols "primary" ∈ [some "#ff0000", some "#00ff00"]
      ∧ alistGet? cols "secondary" ∈ [some "#ff0000", some "#00ff00"]
      ∧ alistGet? cols "accent" = some "#10b981"
      ∧ alistGet? cols "background" = some "#ffffff"
      ∧ alistGet? cols "text" = some "#111827" :=
  c5_colors_amended (fun l => l.reverse.dedup)
    (fun l => ⟨List.nodup_dedup _,
      fun x => by simp [List.mem_dedup, List.mem_reverse]⟩)

/-- C7 (amended): completion is the identity on a specification that is
complete in the §3 sense — all eight fields present and non-empty,
`framework.primary`/`css` present and not `unknown`, and additionally the
nested mandatory keys `package_json`, `text_content`,
`components_description`, `pages_description` and `styles_description`
present and non-empty — for every hints value. -/
theorem c7_idempotence_amended (a f c s : List (String × Py))
    (hints : Option FrameworkHints)
    (hall : ∀ g ∈ requiredFields, (dictGetD a g Py.none).truthy = true)
    (hfw : dictGet? a "framework" = some (.dict f))
    (hp1 : (dictGetD f "primary" Py.none).truthy = true)
    (hp2 : pyEqStr (dictGetD f "primary" Py.none) "unknown" = false)
    (hc1 : (dictGetD f "css" Py.none).truthy = true)
    (hc2 : pyEqStr (dictGetD f "css" Py.none) "unknown" = false)
    (hcr : dictGet? a "cloning_requirements" = some (.dict c))
    (hpkg : (dictGetD c "package_json" Py.none).truthy = true)
    (hcd : (dictGetD c "components_description" Py.none).truthy = true)
    (hpd : (dictGetD c "pages_description" Py.none).truthy = true)
    (hsd : (dictGetD c "styles_description" Py.none).truthy = true)
    (hcs : dictGet? a "content_structure" = some (.dict s))
    (htc : (dictGetD s "text_content" Py.none).truthy = true) :
    validateAndEnhanceAnalysis (.dict a) hints = .ok (.dict a) := by
  have hens : ensureRequiredFields a = a :=
    ensureFoldl_id _ _ (fun g hg => dictHas_of_truthy a g (hall g hg))
  have hcrD : dictGetD a "cloning_requirements" (Py.dict []) = .dict c := by
    simp [dictGetD, hcr]
  have hcsD : dictGetD a "content_structure" (Py.dict []) = .dict s := by
    simp [dictGetD, hcs]
  have hfwD : dictGetD a "framework" (Py.dict []) = .dict f := by
    simp [dictGetD, hfw]
  have hsetCr : dictSet a "cloning_requirements" (Py.dict c) = a :=
    dictSet_self _ _ _ hcr
  have hsetCs : dictSet a "content_structure" (Py.dict s) = a :=
    dictSet_self _ _ _ hcs
  have hsetFw : dictSet a "framework" (Py.dict f) = a :=
    dictSet_self _ _ _ hfw
  have hno1 : primaryNeedsOverwrite f "primary" = false := by
    unfold primaryNeedsOverwrite
    rw [hp1, hp2]
    rfl
  have hno2 : primaryNeedsOverwrite f "css" = false := by
    unfold primaryNeedsOverwrite
    rw [hc1, hc2]
    rfl
  unfold validateAndEnhanceAnalysis
  dsimp only [asDict, Bind.bind, Except.bind]
  rw [hens]
  cases hints with
  | none =>
      try dsimp only [pure, Except.pure, Bind.bind, Except.bind]
      rw [hcrD]
      try dsimp only [pure, Except.pure, Bind.bind, Except.bind]
      simp only [hpkg, Bool.not_true, Bool.false_eq_true, if_false]
      rw [hsetCr, hcsD]
      try dsimp only [pure, Except.pure, Bind.bind, Except.bind]
      simp only [htc, Bool.not_true, Bool.false_eq_true, if_false]
      rw [hsetCs]
      simp only [hcd, hpd, hsd, Bool.not_true, Bool.false_eq_true, if_false]
      try dsimp only [pure, Except.pure, Bind.bind, Except.bind]
      rw [hsetCr]
  | some h =>
      try dsimp only [pure, Except.pure, Bind.bind, Except.bind]
      rw [hfwD]
      try dsimp only [pure, Except.pure, Bind.bind, Except.bind]
      simp only [hno1, hno2, Bool.false_eq_true, if_false]
      try dsimp only [pure, Except.pure, Bind.bind, Except.bind]
      rw [hsetFw, hcrD]
      try dsimp only [pure, Except.pure, Bind.bind, Except.bind]
      simp only [hpkg, Bool.not_true, Bool.false_eq_true, if_false]
      rw [hsetCr, hcsD]
      try dsimp only [pure, Except.pure, Bind.bind, Except.bind]
      simp only [htc, Bool.not_true, Bool.false_eq_true, if_false]
      rw [hsetCs]
      simp only [hcd, hpd, hsd, Bool.not_true, Bool.false_eq_true, if_false]
      try dsimp only [pure, Except.pure, Bind.bind, Except.bind]
      rw [hsetCr]

/-- A specification whose eight top-level fields are all present and
non-empty and whose framework fields are known, but whose nested
`package_json` / description keys are absent — the claim's literal notion
of "already-complete". -/
def c7Input : Py := Py.dict
  [("framework", .dict [("primary", .str "react"), ("css", .str "tailwind")]),
   ("layout", .dict [("type", .str "grid")]),
   ("colors", .dict [("primary", .str "#fff")]),
   ("typography", .dict [("primary_font", .str "Arial")]),
   ("components", .list [.str "header"]),
   ("interactive_elements", .dict [("buttons", .list [.str "primary"])]),
   ("content_structure", .dict [("text_content", .dict
      [("header", .str "H"), ("main", .str "M"), ("footer", .str "F")])]),
   ("cloning_requirements", .dict [("npm_packages", .list [.str "react"])])]

/-- Whether a completion result holds a dict whose `k1` member has key `k2`. -/
def hasNestedKey (r : Except String Py) (k1 k2 : String) : Bool :=
  match r with
  | .ok (.dict d) =>
      match dictGet? d k1 with
      | some (.dict c) => dictHas c k2
      | _ => false
  | _ => false

/-- C7 (counterexample): on an input with all eight fields present and
non-empty (and known framework fields), completion succeeds but returns a
different object — it inserts `cloning_requirements.package_json` (and the
description maps), so "no field present is overwritten" does not extend to
"the result is identical" under the claim's literal hypothesis. -/
theorem c7_counterexample :
    (validateAndEnhanceAnalysis c7Input Option.none).isOk = true
    ∧ validateAndEnhanceAnalysis c7Input Option.none ≠ .ok c7Input := by
  refine ⟨rfl, fun h => ?_⟩
  have h1 : hasNestedKey (validateAndEnhanceAnalysis c7Input Option.none)
      "cloning_requirements" "package_json" = true := rfl
  rw [h] at h1
  have h2 : hasNestedKey (.ok c7Input) "cloning_requirements" "package_json" = false := rfl
  exact Bool.noConfusion (h2.symm.trans h1)

theorem c7_idempotence_amended_witness :
    validateAndEnhanceAnalysis (Py.dict
      [("framework", .dict [("primary", .str "react"), ("css", .str "tailwind")]),
       ("layout", .dict [("type", .str "grid")]),
       ("colors", .dict [("primary", .str "#fff")]),
       ("typography", .dict [("primary_font", .str "Arial")]),
       ("components", .list [.str "header"]),
       ("interactive_elements", .dict [("buttons", .list [.str "primary"])]),
       ("content_structure", .dict [("text_content", .dict [("header", .str "H")])]),
       ("cloning_requirements", .dict
         [("package_json", .dict [("name", .str "x")]),
          ("components_description", .dict [("a", .str "b")]),
          ("pages_description", .dict [("a", .str "b")]),
          ("styles_description", .dict [("a", .str "b")])])])
      (some ⟨[], [], []⟩)
    = .ok (Py.dict
      [("framework", .dict [("primary", .str "react"), ("css", .str "tailwind")]),
       ("layout", .dict [("type", .str "grid")]),
       ("colors", .dict [("primary", .str "#fff")]),
       ("typography", .dict [("primary_font", .str "Arial")]),
       ("components", .list [.str "header"]),
       ("interactive_elements", .dict [("buttons", .list [.str "primary"])]),
       ("content_structure", .dict [("text_content", .dict [("header", .str "H")])]),
       ("cloning_requirements", .dict
         [("package_json", .dict [("name", .str "x")]),
          ("components_description", .dict [("a", .str "b")]),
          ("pages_description", .dict [("a", .str "b")]),
          ("styles_description", .dict [("a", .str "b")])])]) :=
  c7_idempotence_amended _ _ _ _ (some ⟨[], [], []⟩)
    (by decide) rfl (by decide) (by decide) (by decide) (by decide)
    rfl (by decide) (by decide) (by decide) (by decide) rfl (by decide)

/-- A partial specification whose `content_structure.text_content` is
present and non-empty but lacks `header`/`main`/`footer` (all description
maps present so completion does not crash on the missing keys). -/
def c1Input : Py := Py.dict
  [("content_structure", .dict [("text_content", .dict [("x", .str "y")])]),
   ("cloning_requirements", .dict
     [("package_json", .dict [("a", .int 1)]),
      ("components_description", .dict [("a", .str "b")]),
      ("pages_description", .dict [("a", .str "b")]),
      ("styles_description", .dict [("a", .str "b")])])]

/-- C1 (counterexample): the Completer preserves a truthy `text_content`
verbatim, so on `c1Input` the completed output's `text_content` is exactly
`{"x": "y"}` — missing `header`, `main` and `footer`, contrary to the
claim's "at least the keys header, main, footer" for arbitrary contents of
present fields. -/
theorem c1_counterexample :
    validateAndEnhanceAnalysis c1Input Option.none = .ok (Py.dict
      [("content_structure", .dict [("text_content", .dict [("x", .str "y")])]),
       ("cloning_requirements", .dict
         [("package_json", .dict [("a", .int 1)]),
          ("components_description", .dict [("a", .str "b")]),
          ("pages_description", .dict [("a", .str "b")]),
          ("styles_description", .dict [("a", .str "b")])]),
       ("framework", .dict []), ("layout", .dict []), ("colors", .dict []),
       ("typography", .dict []), ("components", .list []),
       ("interactive_elements", .dict [])])
    ∧ dictHas [("x", Py.str "y")] "header" = false := ⟨rfl, rfl⟩

set_option maxHeartbeats 1600000 in
/-- C1 (amended): with no framework hints, for every partial input whose
`cloning_requirements` and `content_structure`, when present, are mappings,
and whose `text_content` is absent, empty, or already carries the keys
`header`, `main` and `footer`: completion succeeds, its output has all
eight top-level fields, and the output's `text_content` contains at least
`header`, `main` and `footer`. -/
theorem c1_completer_amended (a : List (String × Py))
    (hcr : dictGet? a "cloning_requirements" = Option.none
      ∨ ∃ cr, dictGet? a "cloning_requirements" = some (Py.dict cr))
    (hcs : dictGet? a "content_structure" = Option.none
      ∨ ∃ cs, dictGet? a "content_structure" = some (Py.dict cs)
          ∧ ((dictGetD cs "text_content" Py.none).truthy = false
             ∨ ∃ tc, dictGet? cs "text_content" = some (Py.dict tc)
                 ∧ dictHas tc "header" = true ∧ dictHas tc "main" = true
                 ∧ dictHas tc "footer" = true)) :
    ∃ out, validateAndEnhanceAnalysis (Py.dict a) Option.none = .ok (Py.dict out)
      ∧ (∀ f ∈ requiredFields, dictHas out f = true)
      ∧ ∃ cs' tc', dictGet? out "content_structure" = some (Py.dict cs')
          ∧ dictGet? cs' "text_content" = some (Py.dict tc')
          ∧ dictHas tc' "header" = true ∧ dictHas tc' "main" = true
          ∧ dictHas tc' "footer" = true := by
  obtain ⟨cr0, hcr0⟩ : ∃ cr0,
      dictGetD (ensureRequiredFields a) "cloning_requirements" (Py.dict [])
        = Py.dict cr0 := by
    rcases hcr with h | ⟨cr, h⟩
    · refine ⟨[], ?_⟩
      have := ensureFoldl_absent requiredFields a "cloning_requirements"
        (by simp [requiredFields]) h
      simp [dictGetD, ensureRequiredFields, this, requiredFieldDefault]
    · refine ⟨cr, ?_⟩
      have := ensureFoldl_preserves requiredFields a "cloning_requirements" _ h
      simp [dictGetD, ensureRequiredFields, this]
  obtain ⟨cs0, hcs0, htc0⟩ : ∃ cs0,
      dictGetD (ensureRequiredFields a) "content_structure" (Py.dict [])
        = Py.dict cs0
      ∧ ((dictGetD cs0 "text_content" Py.none).truthy = false
         ∨ ∃ tc, dictGet? cs0 "text_content" = some (Py.dict tc)
             ∧ dictHas tc "header" = true ∧ dictHas tc "main" = true
             ∧ dictHas tc "footer" = true) := by
    rcases hcs with h | ⟨cs, h, htc⟩
    · refine ⟨[], ?_, Or.inl (by simp [dictGetD, dictGet?, Py.truthy])⟩
      have := ensureFoldl_absent requiredFields a "content_structure"
        (by simp [requiredFields]) h
      simp [dictGetD, ensureRequiredFields, this, requiredFieldDefault]
    · refine ⟨cs, ?_, htc⟩
      have := ensureFoldl_preserves requiredFields a "content_structure" _ h
      simp [dictGetD, ensureRequiredFields, this]
  obtain ⟨cs1, tcd, hcs1, hfind, hH, hM, hF⟩ : ∃ cs1 tcd,
      (if (!(dictGetD cs0 "text_content" Py.none).truthy) = true
       then dictSet cs0 "text_content" defaultTextContent else cs0) = cs1
      ∧ dictGet? cs1 "text_content" = some (Py.dict tcd)
      ∧ dictHas tcd "header" = true ∧ dictHas tcd "main" = true
      ∧ dictHas tcd "footer" = true := by
    rcases htc0 with htcF | ⟨tc, htcEq, h1, h2, h3⟩
    · refine ⟨_, [("header", .str "Default header text"),
        ("main", .str "Default main content"), ("footer", .str "Default footer text")],
        rfl, ?_, by decide, by decide, by decide⟩
      rw [htcF]
      simp only [Bool.not_false, if_true]
      exact dictGet?_dictSet_self cs0 "text_content" defaultTextContent
    · have hne : tc.isEmpty = false := by
        cases tc with
        | nil => simp [dictHas, dictGet?] at h1
        | cons x xs => rfl
      have htcT : (dictGetD cs0 "text_content" Py.none).truthy = true := by
        simp [dictGetD, htcEq, Py.truthy, hne]
      refine ⟨cs0, tc, ?_, htcEq, h1, h2, h3⟩
      rw [htcT]
      rfl
  have hGI : pyGetItem (Py.dict cs1) "text_content" = .ok (.dict tcd) := by
    simp [pyGetItem, hfind]
  obtain ⟨vH, hGH⟩ : ∃ v, pyGetItem (Py.dict tcd) "header" = .ok v := by
    unfold dictHas at hH
    cases hx : dictGet? tcd "header" with
    | none => rw [hx] at hH; simp at hH
    | some v => exact ⟨v, by simp [pyGetItem, hx]⟩
  obtain ⟨vM, hGM⟩ : ∃ v, pyGetItem (Py.dict tcd) "main" = .ok v := by
    unfold dictHas at hM
    cases hx : dictGet? tcd "main" with
    | none => rw [hx] at hM; simp at hM
    | some v => exact ⟨v, by simp [pyGetItem, hx]⟩
  obtain ⟨vF, hGF⟩ : ∃ v, pyGetItem (Py.dict tcd) "footer" = .ok v := by
    unfold dictHas at hF
    cases hx : dictGet? tcd "footer" with
    | none => rw [hx] at hF; simp at hF
    | some v => exact ⟨v, by simp [pyGetItem, hx]⟩
  unfold validateAndEnhanceAnalysis
  dsimp only [asDict, pure, Except.pure, Bind.bind, Except.bind]
  rw [hcr0]
  dsimp only
  rw [show dictGetD
      (dictSet (ensureRequiredFields a) "cloning_requirements"
        (Py.dict (if (!(dictGetD cr0 "package_json" Py.none).truthy) = true
          then dictSet cr0 "package_json" defaultPackageJsonCompleter else cr0)))
      "content_structure" (Py.dict []) = Py.dict cs0 by
    rw [dictGetD, dictGet?_dictSet_ne _ _ _ _ (by decide)]
    exact hcs0]
  dsimp only
  rw [hcs1, hGI]
  dsimp only
  rw [hGH]
  dsimp only
  rw [hGM]
  dsimp only
  rw [hGF]
  dsimp only
  repeat' split
  all_goals
    refine ⟨_, rfl, fun f hf => ?_, cs1, tcd, ?_, hfind, hH, hM, hF⟩
  all_goals
    try (rw [dictGet?_dictSet_ne _ "content_structure" "cloning_requirements" _
          (by decide)]
         exact dictGet?_dictSet_self _ _ _)
  all_goals
    exact dictHas_dictSet_of _ _ _ _ (dictHas_dictSet_of _ _ _ _
      (dictHas_dictSet_of _ _ _ _ (ensureFoldl_has requiredFields a _ hf)))

theorem c1_completer_amended_witness :
    ∃ out, validateAndEnhanceAnalysis
        (Py.dict [("colors", Py.dict [("primary", Py.str "#123456")])])
        Option.none = .ok (Py.dict out)
      ∧ (∀ f ∈ requiredFields, dictHas out f = true)
      ∧ ∃ cs' tc', dictGet? out "content_structure" = some (Py.dict cs')
          ∧ dictGet? cs' "text_content" = some (Py.dict tc')
          ∧ dictHas tc' "header" = true ∧ dictHas tc' "main" = true
          ∧ dictHas tc' "footer" = true :=
  c1_completer_amended [("colors", Py.dict [("primary", Py.str "#123456")])]
    (Or.inl rfl) (Or.inl rfl)

theorem dropWhile_append_head {p : Char → Bool} (l1 : List Char) (c : Char)
    (t : List Char) (hc : p c = false) :
    (l1 ++ c :: t).dropWhile p = l1.dropWhile p ++ c :: t := by
  induction l1 with
  | nil => simp [List.dropWhile_cons, hc]
  | cons a l1 ih =>
      by_cases ha : p a
      · simp [List.dropWhile_cons, ha, ih]
      · simp [List.dropWhile_cons, ha]

theorem dropWhile_append_all {p : Char → Bool} (l1 l2 : List Char)
    (h : ∀ c ∈ l1, p c = true) : (l1 ++ l2).dropWhile p = l2.dropWhile p := by
  induction l1 with
  | nil => simp
  | cons a l1 ih =>
      simp only [List.cons_append, List.dropWhile_cons, h a (List.mem_cons_self a l1),
        if_true]
      exact ih (fun c hc => h c (List.mem_cons_of_mem a hc))

theorem dropWhile_cons_false {p : Char → Bool} (c : Char) (l : List Char)
    (h : p c = false) : (c :: l).dropWhile p = c :: l := by
  simp [List.dropWhile_cons, h]

/-- C6 (counterexample): `{"a": 1} }` contains exactly one well-formed JSON
object followed by prose with a stray closing brace; the greedy and
end-anchored patterns both capture the stray brace and fail to parse, the
fenced patterns find no fence, so extraction fails and the Normalizer falls
back to the heuristic instead of returning the object.  Moreover the bare
empty object `{}` parses but is falsy, so `if parsed_json:` routes it to
the heuristic fallback as well. -/
theorem c6_counterexample :
    jsonParse "\x7b\"a\": 1\x7d" = some (Py.dict [("a", Py.int 1)])
    ∧ extractJsonStage "\x7b\"a\": 1\x7d \x7d" = Option.none
    ∧ jsonParse "\x7b\x7d" = some (Py.dict [])
    ∧ Py.truthy (Py.dict []) = false
    ∧ parseGeminiResponse "\x7b\x7d" Option.none
        = extractFromTextResponse "\x7b\x7d" Option.none :=
  ⟨rfl, rfl, rfl, rfl, rfl⟩

/-- C6 (amended): for every text `pre ++ J ++ post` where `J` parses as a
(non-empty, brace-delimited) JSON object and the surrounding prose contains
no braces (and no backticks before the object), the extraction stage
returns exactly `J`'s parsed content; and the Normalizer then hands exactly
that object to the Specification Completer. -/
theorem c6_extraction_amended (pre J post : List Char) (v : Py)
    (hpre : ∀ c ∈ pre, c ≠ '{' ∧ c ≠ '}' ∧ c ≠ '`')
    (hpost : ∀ c ∈ post, c ≠ '{' ∧ c ≠ '}')
    (hJh : J.head? = some '{') (hJl : J.getLast? = some '}')
    (hparse : jsonParse ⟨J⟩ = some v) :
    extractJsonStage ⟨pre ++ J ++ post⟩ = some v
    ∧ ∀ (hints : Option FrameworkHints) (r : Py), Py.truthy v = true →
        validateAndEnhanceAnalysis v hints = .ok r →
        parseGeminiResponse ⟨pre ++ J ++ post⟩ hints = .ok r := by
  obtain ⟨J', rfl⟩ : ∃ J', J = '{' :: J' := by
    cases J with
    | nil => simp at hJh
    | cons c t =>
        simp only [List.head?_cons, Option.some.injEq] at hJh
        exact ⟨t, by rw [hJh]⟩
  obtain ⟨K, hK⟩ : ∃ K, ('{' :: J').reverse = '}' :: K := by
    have hrev := (List.head?_reverse ('{' :: J')).trans hJl
    cases hr : ('{' :: J').reverse with
    | nil => rw [hr] at hrev; simp at hrev
    | cons c K =>
        rw [hr] at hrev
        simp only [List.head?_cons, Option.some.injEq] at hrev
        exact ⟨K, by rw [hrev]⟩
  set pre1 := pre.dropWhile isPySpace with hpre1def
  set post1 := (post.reverse.dropWhile isPySpace).reverse with hpost1def
  have hpre1mem : ∀ c ∈ pre1, c ≠ '{' ∧ c ≠ '}' ∧ c ≠ '`' :=
    fun c hc => hpre c ((List.dropWhile_sublist _).subset hc)
  have hpost1mem : ∀ c ∈ post1, c ≠ '{' ∧ c ≠ '}' := by
    intro c hc
    have h2 : c ∈ post.reverse.dropWhile isPySpace := List.mem_reverse.mp hc
    exact hpost c (List.mem_reverse.mp ((List.dropWhile_sublist _).subset h2))
  have hstrip : pyStripList (pre ++ ('{' :: J') ++ post)
      = pre1 ++ ('{' :: J') ++ post1 := by
    unfold pyStripList
    have e1 : pre ++ ('{' :: J') ++ post = pre ++ '{' :: (J' ++ post) := by
      simp [List.append_assoc]
    rw [e1, dropWhile_append_head pre '{' (J' ++ post) (by decide)]
    have e2 : (pre1 ++ '{' :: (J' ++ post)).reverse
        = post.reverse ++ '}' :: (K ++ pre1.reverse) := by
      rw [List.reverse_append]
      have e2a : ('{' :: (J' ++ post)).reverse = post.reverse ++ ('{' :: J').reverse := by
        rw [← List.cons_append, List.reverse_append]
      rw [e2a, hK]
      simp [List.append_assoc]
    rw [e2, dropWhile_append_head post.reverse '}' (K ++ pre1.reverse) (by decide)]
    rw [List.reverse_append]
    have e3 : ('}' :: (K ++ pre1.reverse)).reverse = pre1 ++ ('{' :: J') := by
      rw [List.reverse_cons, List.reverse_append, List.reverse_reverse]
      have e3a : ('{' :: J') = K.reverse ++ ['}'] := by
        have h4 := congrArg List.reverse hK
        rw [List.reverse_reverse, List.reverse_cons] at h4
        exact h4
      rw [e3a]
      simp [List.append_assoc]
    rw [e3, ← hpost1def]
  have hfence1 : List.isPrefixOf "```json".toList (pre1 ++ ('{' :: J') ++ post1)
      = false := by
    cases hp : pre1 with
    | nil => rfl
    | cons c t =>
        have hc := (hpre1mem c (by rw [hp]; exact List.mem_cons_self c t)).2.2
        simp [List.cons_append, List.isPrefixOf, Ne.symm hc]
  have hfence2 : List.isPrefixOf "```".toList (pre1 ++ ('{' :: J') ++ post1)
      = false := by
    cases hp : pre1 with
    | nil => rfl
    | cons c t =>
        have hc := (hpre1mem c (by rw [hp]; exact List.mem_cons_self c t)).2.2
        simp [List.cons_append, List.isPrefixOf, Ne.symm hc]
  have hspan : braceSpanGreedy (pre1 ++ ('{' :: J') ++ post1) = some ('{' :: J') := by
    unfold braceSpanGreedy
    dsimp only
    have h1 : pre1 ++ ('{' :: J') ++ post1 = pre1 ++ '{' :: (J' ++ post1) := by
      simp [List.append_assoc]
    rw [h1, dropWhile_append_all pre1 _ (fun c hc => by simp [(hpre1mem c hc).1]),
      dropWhile_cons_false '{' (J' ++ post1) (by simp)]
    have h2 : ('{' :: (J' ++ post1)).reverse = post1.reverse ++ '}' :: K := by
      have h2a : ('{' :: (J' ++ post1)).reverse
          = post1.reverse ++ ('{' :: J').reverse := by
        rw [← List.cons_append, List.reverse_append]
      rw [h2a, hK]
    rw [h2, dropWhile_append_all post1.reverse _
      (fun c hc => by simp [(hpost1mem c (List.mem_reverse.mp hc)).2]),
      dropWhile_cons_false '}' K (by simp)]
    rw [← hK, List.reverse_reverse]
    rfl
  have hmain : extractJsonStage ⟨pre ++ ('{' :: J') ++ post⟩ = some v := by
    unfold extractJsonStage
    dsimp only
    rw [show String.toList ⟨pre ++ ('{' :: J') ++ post⟩
      = pre ++ ('{' :: J') ++ post from rfl]
    rw [hstrip, hfence1, hfence2]
    simp only [Bool.false_eq_true, if_false]
    rw [hspan]
    have hp : jsonParseList ('{' :: J') = some v := hparse
    dsimp only
    rw [hp]
  refine ⟨hmain, fun hints r htr hval => ?_⟩
  unfold parseGeminiResponse
  rw [hmain]
  dsimp only
  rw [htr]
  simp only [if_true]
  rw [hval]

theorem c6_extraction_amended_witness :
    extractJsonStage ⟨"Here is the spec: ".toList ++ "\x7b\"a\": 1\x7d".toList
      ++ " Enjoy!".toList⟩ = some (Py.dict [("a", Py.int 1)]) :=
  (c6_extraction_amended "Here is the spec: ".toList "\x7b\"a\": 1\x7d".toList
    " Enjoy!".toList (Py.dict [("a", Py.int 1)])
    (by decide) (by decide) rfl rfl rfl).1
